import Mathlib

/-!
Verification of the coordinate-mapping and interaction layer of the
Director's Timeline repository (two canvas timeline editors: the film
scene-timeline editor and the music waveform editor).

All JavaScript numbers are modelled as rationals (`ℚ`).  Where the source
divides, JS produces a non-finite value (`Infinity`/`NaN`) exactly when the
divisor is `0`; `jsDivFin` models that case as `none`.  `Math.round` rounds
half toward positive infinity, modelled by `jsRound`.  JS `Array.prototype.sort`
with a numeric comparator is a stable ascending sort, modelled by a stable
insertion sort (`insSortByKey`).
-/

namespace DT

/-! ## Shared time helpers (`src/lib/time.ts`) -/

/-- `timeToX(tSec, zoomPxPerSec, panX) = tSec * zoomPxPerSec + panX`. -/
def timeToX (tSec zoomPxPerSec panX : ℚ) : ℚ := tSec * zoomPxPerSec + panX

/-- `xToTime(xPx, zoomPxPerSec, panX) = (xPx - panX) / zoomPxPerSec`. -/
def xToTime (xPx zoomPxPerSec panX : ℚ) : ℚ := (xPx - panX) / zoomPxPerSec

/-- JS floating-point division: finite result exactly when the divisor is
nonzero; `none` stands for the non-finite results (`±Infinity` or `NaN`)
JS produces when dividing by zero. -/
def jsDivFin (a b : ℚ) : Option ℚ := if b = 0 then none else some (a / b)

/-- Finiteness-aware version of `xToTime`: records whether the unguarded
division `(xPx - panX) / zoomPxPerSec` in the source produces a finite value. -/
def xToTimeFin (xPx zoomPxPerSec panX : ℚ) : Option ℚ :=
  jsDivFin (xPx - panX) zoomPxPerSec

/-- JS `Math.round`: round half toward positive infinity. -/
def jsRound (q : ℚ) : ℤ := ⌊q + 1/2⌋

/-- JS `a || b` on strings (empty string is falsy). -/
def jsStrOr (a b : String) : String := if a = "" then b else a

/-- First element of `l` that is `≥ r`, with default `d`: models the JS
pattern `for (const s of steps) if (raw <= s) return s; return d;`. -/
def firstGE (l : List ℚ) (d : ℚ) (r : ℚ) : ℚ :=
  ((l.find? (fun s => decide (r ≤ s))).getD d)

/-- Stable ascending insertion of `a` into a list sorted by `key`. -/
def insByKey (key : α → ℚ) (a : α) : List α → List α
  | [] => [a]
  | b :: l => if key b < key a then b :: insByKey key a l else a :: b :: l

/-- Stable ascending sort by `key`: models JS `arr.sort((x, y) => key(x) - key(y))`
(stable per the ECMAScript spec). -/
def insSortByKey (key : α → ℚ) : List α → List α
  | [] => []
  | a :: l => insByKey key a (insSortByKey key l)

/-- `arr.map((x, i) => f(i, x))` starting at index `i`. -/
def mapWithIndexFrom (f : ℕ → α → β) : ℕ → List α → List β
  | _, [] => []
  | i, a :: l => f i a :: mapWithIndexFrom f (i + 1) l

/-- JS `arr.map((x, i) => f(i, x))`. -/
def mapWithIndex (f : ℕ → α → β) (l : List α) : List β := mapWithIndexFrom f 0 l

namespace Film

/-! ## Film timeline editor (`FilmTimelineCanvas`) -/

/-- `type ScriptLine = { type: LineType; text: string }`. -/
structure ScriptLine where
  ltype : String
  text : String
deriving DecidableEq, Repr

/-- `type ImageCrop = { xPct; yPct; wPct; hPct }`. -/
structure ImageCrop where
  xPct : ℚ
  yPct : ℚ
  wPct : ℚ
  hPct : ℚ
deriving DecidableEq, Repr

/-- The `imageMeta` record attached to a scene. -/
structure ImageMeta where
  relX : ℚ
  relY : ℚ
  width : ℚ
  height : ℚ
  crop : Option ImageCrop
deriving DecidableEq, Repr

/-- Film `Scene` record.  `collapsed?: boolean` is modelled as `Bool`
(`undefined` behaves as `false` in every use site); `imageUrl?: string | null`
as `Option String`. -/
structure Scene where
  id : String
  originalSceneNumber : ℤ
  newSceneNumber : ℤ
  heading : String
  description : String
  positionSec : ℚ
  lengthSec : ℚ
  yPx : ℚ
  color : String
  collapsed : Bool
  imageUrl : Option String
  imageMeta : Option ImageMeta
  scriptLines : List ScriptLine
deriving DecidableEq, Repr

/-- Film `Note` record (anchored to a scene by `sceneId`). -/
structure FilmNote where
  id : String
  sceneId : String
  text : String
  order : ℚ
  relX : ℚ
  relY : ℚ
  width : ℚ
  height : ℚ
deriving DecidableEq, Repr

def ROW_HEIGHT : ℚ := 40
def SCENE_MIN_SEC : ℚ := 1
def HANDLE_W : ℚ := 8
def COLLAPSED_H : ℚ := 22
def FOOTER_H : ℚ := 56
def TOGGLE_SIZE : ℚ := 12
def TOGGLE_PAD : ℚ := 4
def MIN_ZOOM : ℚ := 1
def MAX_ZOOM : ℚ := 500
def NOTE_GAP_Y : ℚ := 8
def NOTE_DEFAULT_W : ℚ := 180
def NOTE_DEFAULT_H : ℚ := 110
def IMAGE_CARD_W : ℚ := 180
def IMAGE_CARD_H : ℚ := 110

/-- `cssToSec = (xCss - panX) / zoom`. -/
def cssToSec (zoom panX xCss : ℚ) : ℚ := (xCss - panX) / zoom

/-- `secToCss = sec * zoom + panX`. -/
def secToCss (zoom panX sec : ℚ) : ℚ := sec * zoom + panX

/-- Finiteness-aware `cssToSec` (the source divides without a zero guard). -/
def cssToSecFin (zoom panX xCss : ℚ) : Option ℚ := jsDivFin (xCss - panX) zoom

/-- `clampZoom(z) = min(MAX_ZOOM, max(MIN_ZOOM, z))`. -/
def clampZoom (z : ℚ) : ℚ := min MAX_ZOOM (max MIN_ZOOM z)

/-- `applyZoomAbout(cursorXCss, nextZoom)`: returns the `(zoom, panX)` pair the
film editor stores (no pan clamp in this editor). -/
def applyZoomAbout (zoom panX cursorXCss nextZoom : ℚ) : ℚ × ℚ :=
  let z := clampZoom nextZoom
  let worldUnderCursor := cssToSec zoom panX cursorXCss
  (z, cursorXCss - worldUnderCursor * z)

/-- The film editor's grid ladder
`[0.25, 0.5, 1, 2, 3, 5, 10, 15, 30, 60, 120, 300, 600]`. -/
def gridLadder : List ℚ := [1/4, 1/2, 1, 2, 3, 5, 10, 15, 30, 60, 120, 300, 600]

/-- Film grid-step ladder selection (`pickGridStepSec`, film editor). -/
def pickGridStepSec (z : ℚ) : ℚ := firstGE gridLadder 1200 (120 / z)

/-- `roundToSnap(v)`: identity when snapping is off, else round to the nearest
multiple of `max(0.001, snapStep)` with JS `Math.round`. -/
def roundToSnap (snapEnabled : Bool) (snapStep v : ℚ) : ℚ :=
  if snapEnabled then
    (jsRound (v / max (1/1000) snapStep) : ℚ) * max (1/1000) snapStep
  else v

/-- An axis-aligned screen rectangle (CSS px). -/
structure Rect where
  x : ℚ
  y : ℚ
  w : ℚ
  h : ℚ
deriving DecidableEq, Repr

/-- Inclusive-bounds point-in-rectangle test
(`x >= left && x <= left + w && y >= top && y <= top + h`). -/
def insideRect (r : Rect) (px py : ℚ) : Bool :=
  decide (r.x ≤ px ∧ px ≤ r.x + r.w ∧ r.y ≤ py ∧ py ≤ r.y + r.h)

/-- `baseNotesY(scene)`: the CSS y where a scene's note/image stack begins. -/
def baseNotesY (s : Scene) : ℚ :=
  (s.yPx + 4) + (if s.collapsed then COLLAPSED_H else ROW_HEIGHT - 6 + FOOTER_H)
    + NOTE_GAP_Y

/-- `getImageRectCss(scene)`: `none` when the scene has no image url, no image
meta, or is collapsed (the JS guard `!scene.imageUrl || !scene.imageMeta ||
scene.collapsed`; a present-but-empty url string is not modelled since the
code never stores one). -/
def getImageRectCss (zoom panX : ℚ) (s : Scene) : Option Rect :=
  match s.imageUrl, s.imageMeta with
  | some _, some m =>
    if s.collapsed then none
    else some ⟨secToCss zoom panX s.positionSec + m.relX, baseNotesY s + m.relY,
      m.width, m.height⟩
  | _, _ => none

/-- `notesByScene.get(sid)`: the scene's notes in stable ascending `order`,
re-indexed densely `0..n-1`. -/
def notesByScene (notes : List FilmNote) (sid : String) : List FilmNote :=
  mapWithIndex (fun i n => { n with order := (i : ℚ) })
    (insSortByKey (fun n => n.order)
      (notes.filter (fun n => decide (n.sceneId = sid))))

/-- One entry of `getSceneNotesStack`. -/
structure StackItem where
  note : FilmNote
  x : ℚ
  y : ℚ
  w : ℚ
  h : ℚ
  index : ℕ
deriving DecidableEq, Repr

/-- The screen rectangle of a stack item. -/
def StackItem.rect (it : StackItem) : Rect := ⟨it.x, it.y, it.w, it.h⟩

/-- `getSceneNotesStack(sid)`: the laid-out note cards of a scene, stacked
below the scene block (and below its image card when present). -/
def getSceneNotesStack (zoom panX : ℚ) (scenes : List Scene)
    (notes : List FilmNote) (sid : String) : List StackItem :=
  match scenes.find? (fun x => decide (x.id = sid)) with
  | none => []
  | some s =>
    let arr := notesByScene notes sid
    let yOffset : ℚ :=
      match getImageRectCss zoom panX s with
      | some r => r.h + NOTE_GAP_Y
      | none => 0
    mapWithIndex (fun i n =>
      { note := n, x := secToCss zoom panX s.positionSec + n.relX,
        y := baseNotesY s + yOffset + n.relY + (i : ℚ) * (NOTE_DEFAULT_H + NOTE_GAP_Y),
        w := n.width, h := n.height, index := i }) arr

/-- Film drag modes (`type DragMode`). -/
inductive DragMode
  | none
  | pan
  | scene
  | resizeR
  | resizeL
  | note
  | image
  | marquee
deriving DecidableEq, Repr

/-- `hitSceneAt(xCss, yCss)`: topmost (last-drawn, i.e. reverse insertion
order) scene whose block contains the point, with edge-band sub-region
resolution. -/
def hitSceneAt (zoom panX : ℚ) (scenes : List Scene) (x y : ℚ) :
    Option (Scene × DragMode) :=
  scenes.reverse.findSome? (fun s =>
    let left := secToCss zoom panX s.positionSec
    let width := s.lengthSec * zoom
    let height : ℚ := if s.collapsed then COLLAPSED_H else ROW_HEIGHT - 6 + FOOTER_H
    let top := s.yPx + 4
    if insideRect ⟨left, top, width, height⟩ x y then
      if x ≤ left + HANDLE_W then some (s, DragMode.resizeL)
      else if left + width - HANDLE_W ≤ x then some (s, DragMode.resizeR)
      else some (s, DragMode.scene)
    else none)

/-- `hitChevron(s, xCss, yCss)`: the collapse-toggle box at the top-left of a
scene block. -/
def hitChevron (zoom panX : ℚ) (s : Scene) (x y : ℚ) : Bool :=
  let left := secToCss zoom panX s.positionSec
  let top := s.yPx + 4
  let x0 := left + TOGGLE_PAD
  let y0 := top + 6
  decide (x0 ≤ x ∧ x ≤ x0 + TOGGLE_SIZE ∧ y0 ≤ y ∧ y ≤ y0 + TOGGLE_SIZE)

/-- `hitNoteAt(xCss, yCss)`: scan scenes topmost-first, and each scene's note
stack topmost-first (`.slice().reverse()`). -/
def hitNoteAt (zoom panX : ℚ) (scenes : List Scene) (notes : List FilmNote)
    (x y : ℚ) : Option (Scene × FilmNote) :=
  scenes.reverse.findSome? (fun s =>
    ((getSceneNotesStack zoom panX scenes notes s.id).reverse.find?
        (fun it => insideRect it.rect x y)).map (fun it => (s, it.note)))

/-- `hitImageAt(xCss, yCss)`: topmost image card containing the point. -/
def hitImageAt (zoom panX : ℚ) (scenes : List Scene) (x y : ℚ) :
    Option (Scene × ImageMeta) :=
  scenes.reverse.findSome? (fun s =>
    match getImageRectCss zoom panX s, s.imageMeta with
    | some r, some m => if insideRect r x y then some (s, m) else none
    | _, _ => none)

/-- The resolution of a pointer-down: which entity (and sub-region) the
`onMouseDown` handler acts on, in its fixed priority order. -/
inductive MouseDownHit
  | note (s : Scene) (n : FilmNote)
  | image (s : Scene) (m : ImageMeta)
  | chevron (s : Scene)
  | sceneHit (s : Scene) (region : DragMode)
  | marquee
deriving DecidableEq, Repr

/-- The `onMouseDown` hit chain: note first, then image card, then scene
(with chevron test), else marquee. -/
def mouseDownHit (zoom panX : ℚ) (scenes : List Scene) (notes : List FilmNote)
    (x y : ℚ) : MouseDownHit :=
  match hitNoteAt zoom panX scenes notes x y with
  | some (s, n) => .note s n
  | none =>
    match hitImageAt zoom panX scenes x y with
    | some (s, m) => .image s m
    | none =>
      match hitSceneAt zoom panX scenes x y with
      | some (s, region) =>
        if hitChevron zoom panX s x y then .chevron s else .sceneHit s region
      | none => .marquee

/-- The `resizeL` branch of `onMouseMove` restricted to the resized scene:
new `(positionSec, lengthSec)` from the pre-drag snapshot `(pos, len)` and the
total mouse delta `dx`. -/
def resizeLPosLen (snapEnabled : Bool) (snapStep pos len dx zoom : ℚ) : ℚ × ℚ :=
  let deltaSec := dx / zoom
  (roundToSnap snapEnabled snapStep (max 0 (pos + deltaSec)),
   roundToSnap snapEnabled snapStep (max SCENE_MIN_SEC (len - deltaSec)))

/-- Scenes sorted by `originalSceneNumber` ascending
(JS `sort((a, b) => a.originalSceneNumber - b.originalSceneNumber)`). -/
def sortByNumber (l : List Scene) : List Scene :=
  insSortByKey (fun s => (s.originalSceneNumber : ℚ)) l

/-- The position computed by `autoPlaceByOriginalNumber`: after the
predecessor if it fits before the successor, else before the successor if it
fits after the predecessor, else the midpoint of the available span; with no
neighbours, the (snapped) current position. -/
def autoPlacePos (se : Bool) (st : ℚ) (scene : Scene) (others : List Scene) : ℚ :=
  let gap : ℚ := 1
  let all := sortByNumber others
  let prev := all.reverse.find?
    (fun s => decide (s.originalSceneNumber < scene.originalSceneNumber))
  let next := all.find?
    (fun s => decide (scene.originalSceneNumber < s.originalSceneNumber))
  if prev = none ∧ next = none then roundToSnap se st scene.positionSec
  else
    let tryPrev : Option ℚ :=
      match prev with
      | some p =>
        let candidate := roundToSnap se st (p.positionSec + p.lengthSec + gap)
        match next with
        | none => some candidate
        | some n =>
          if candidate + scene.lengthSec ≤ n.positionSec - gap then some candidate
          else none
      | none => none
    match tryPrev with
    | some c => c
    | none =>
      let tryNext : Option ℚ :=
        match next with
        | some n =>
          let candidate := roundToSnap se st (max 0 (n.positionSec - scene.lengthSec - gap))
          match prev with
          | none => some candidate
          | some p =>
            if p.positionSec + p.lengthSec + gap ≤ candidate then some candidate
            else none
        | none => none
      match tryNext with
      | some c => c
      | none =>
        let leftEdge :=
          match prev with
          | some p => p.positionSec + p.lengthSec
          | none => 0
        let rightEdge :=
          match next with
          | some n => n.positionSec
          | none => leftEdge + scene.lengthSec + 2 * gap
        roundToSnap se st (max 0 ((leftEdge + rightEdge - scene.lengthSec) / 2))

/-- `autoPlaceByOriginalNumber(scene, others)`: every exit of the source
returns `{...scene, positionSec: X}`; only `positionSec` changes. -/
def autoPlaceByOriginalNumber (se : Bool) (st : ℚ) (scene : Scene)
    (others : List Scene) : Scene :=
  { scene with positionSec := autoPlacePos se st scene others }

/-- JS `Number(x) || 1` (falsy `0`/`NaN` replaced by `1`). -/
def jsNumOr1 (v : ℚ) : ℚ := if v = 0 then 1 else v

/-- The `setScenes` updater of `updateOriginalNumber`: reject and alert (the
`Bool`) when another scene already uses the requested number; otherwise write
the number and re-auto-place the scene. -/
def updateOriginalNumberScenes (se : Bool) (st : ℚ) (scenes : List Scene)
    (selectedId : String) (v : ℚ) : List Scene × Bool :=
  let vRaw : ℤ := max 1 ⌊Film.jsNumOr1 v⌋
  match scenes.find? (fun s => decide (s.id = selectedId)) with
  | none => (scenes, false)
  | some cur =>
    if scenes.any (fun s => decide (s.id ≠ cur.id) && decide (s.originalSceneNumber = vRaw)) then
      (scenes, true)
    else
      let updated := scenes.map (fun s =>
        if s.id = cur.id then { s with originalSceneNumber := vRaw } else s)
      match updated.find? (fun s => decide (s.id = cur.id)) with
      | some c =>
        let placed := autoPlaceByOriginalNumber se st c
          (updated.filter (fun s => decide (s.id ≠ cur.id)))
        (updated.map (fun s => if s.id = placed.id then placed else s), false)
      | none => (updated, false)

/-- The ambient state of the film editor component (collections, viewport,
selection, snapping, undo history, and the drag-session refs). -/
structure FilmState where
  scenes : List Scene
  notes : List FilmNote
  history : List (List Scene × List FilmNote)
  zoom : ℚ
  panX : ℚ
  playheadSec : ℚ
  projectName : String
  snapEnabled : Bool
  snapStep : ℚ
  reattachMode : Bool
  selectedSceneId : Option String
  selectedNoteId : Option String
  selectedImageSceneId : Option String
  cropModalSceneId : Option String
  cropValues : ImageCrop
  dragMode : DragMode
  isMouseDown : Bool
  activeSceneId : Option String
  sceneStartSnapshot : Option (ℚ × ℚ × ℚ)
  activeNoteId : Option String
  noteStartSnapshot : Option (ℚ × ℚ)
  activeImageSceneId : Option String
  imageStartSnapshot : Option (ℚ × ℚ)
  marquee : Option (ℚ × ℚ × ℚ × ℚ)
  multiSelIds : List String
deriving DecidableEq, Repr

/-- `pushHistory()`: append a (deep) copy of the current scene and note
collections to the undo stack (`structuredClone` of immutable values is the
value itself). -/
def pushHistory (st : FilmState) : FilmState :=
  { st with history := st.history ++ [(st.scenes, st.notes)] }

/-- `undo()`: restore the most recent history entry and pop it; no-op on an
empty history. -/
def undo (st : FilmState) : FilmState :=
  match st.history.getLast? with
  | none => st
  | some prev =>
    { st with scenes := prev.1, notes := prev.2, history := st.history.dropLast }

/-- Versioned project file (`ProjectFileV1`), with every field optional as in
`loadProject`'s `Partial<ProjectFileV1>` view of untrusted JSON. -/
structure ProjectFileV1 where
  version : Option ℕ
  kind : Option String
  projectName : Option String
  zoom : Option ℚ
  panX : Option ℚ
  playheadSec : Option ℚ
  scenes : Option (List Scene)
  notes : Option (List FilmNote)
deriving DecidableEq, Repr

/-- `makeProject()`. -/
def makeProject (st : FilmState) : ProjectFileV1 :=
  { version := some 1, kind := some "dtfilm", projectName := some st.projectName,
    zoom := some st.zoom, panX := some st.panX, playheadSec := some st.playheadSec,
    scenes := some st.scenes, notes := some st.notes }

/-- `loadProject(data)`: validate `kind`/`version` and the array shape of
`scenes`/`notes`, else throw `Invalid project file`; on success replace the
collections, clamp and set the viewport, and set the playhead. -/
def loadProject (st : FilmState) (p : ProjectFileV1) : Except String FilmState :=
  match p.scenes, p.notes with
  | some sc, some nt =>
    if p.kind = some "dtfilm" ∧ p.version = some 1 then
      Except.ok { st with
        scenes := sc, notes := nt,
        zoom := clampZoom (p.zoom.getD st.zoom),
        panX := p.panX.getD 0,
        playheadSec := p.playheadSec.getD 0,
        projectName := jsStrOr (p.projectName.getD "") "Untitled Project" }
    else Except.error "Invalid project file"
  | _, _ => Except.error "Invalid project file"

/-- `rectsOverlap`: strict axis-aligned overlap test. -/
def rectsOverlap (x1 y1 w1 h1 x2 y2 w2 h2 : ℚ) : Bool :=
  decide (x1 < x2 + w2 ∧ x2 < x1 + w1 ∧ y1 < y2 + h2 ∧ y2 < y1 + h1)

/-- `onMouseDown`: scrub the playhead, then resolve the hit chain; every
entity hit pushes the undo history before its mutation or drag start. -/
def applyMouseDown (x y : ℚ) (st : FilmState) : FilmState :=
  let st0 := { st with
    isMouseDown := true,
    playheadSec := max 0 (cssToSec st.zoom st.panX x) }
  match mouseDownHit st.zoom st.panX st.scenes st.notes x y with
  | .note _ n =>
    { pushHistory st0 with
      selectedImageSceneId := none,
      selectedNoteId := some n.id, activeNoteId := some n.id,
      noteStartSnapshot := some (n.relX, n.relY), dragMode := DragMode.note,
      selectedSceneId := none }
  | .image s m =>
    { pushHistory st0 with
      selectedNoteId := none,
      selectedImageSceneId := some s.id, activeImageSceneId := some s.id,
      imageStartSnapshot := some (m.relX, m.relY), dragMode := DragMode.image,
      selectedSceneId := none }
  | .chevron s =>
    { pushHistory st0 with
      scenes := st0.scenes.map (fun t =>
        if t.id = s.id then { t with collapsed := !t.collapsed } else t),
      selectedSceneId := some s.id, isMouseDown := false,
      dragMode := DragMode.none }
  | .sceneHit s region =>
    { pushHistory st0 with
      selectedSceneId := some s.id, selectedNoteId := none,
      selectedImageSceneId := none, activeSceneId := some s.id,
      sceneStartSnapshot := some (s.positionSec, s.lengthSec, s.yPx),
      dragMode := region }
  | .marquee =>
    { st0 with
      selectedSceneId := none, selectedNoteId := none,
      selectedImageSceneId := none, dragMode := DragMode.marquee,
      marquee := some (x, y, x, y), multiSelIds := [] }

/-- The marquee branch of `onMouseMove`: extend the rubber-band rectangle and
recompute the overlap-selected scene set. -/
def moveMarquee (x y : ℚ) (st : FilmState) : FilmState :=
  match st.marquee with
  | none => st
  | some m =>
    let mx0 := min m.1 x
    let mx1 := max m.1 x
    let my0 := min m.2.1 y
    let my1 := max m.2.1 y
    let sel := (st.scenes.filter (fun s =>
      rectsOverlap mx0 my0 (mx1 - mx0) (my1 - my0)
        (secToCss st.zoom st.panX s.positionSec) (s.yPx + 4)
        (s.lengthSec * st.zoom)
        (if s.collapsed then COLLAPSED_H else ROW_HEIGHT - 6))).map (fun s => s.id)
    { st with marquee := some (m.1, m.2.1, x, y), multiSelIds := sel }

/-- The note branch of `onMouseMove`: offset the dragged note from its
pre-drag snapshot. -/
def moveNoteDrag (dx dy : ℚ) (st : FilmState) : FilmState :=
  match st.activeNoteId, st.noteStartSnapshot with
  | some nid, some snap =>
    { st with notes := st.notes.map (fun n =>
        if n.id = nid then { n with relX := snap.1 + dx, relY := snap.2 + dy }
        else n) }
  | _, _ => st

/-- The image branch of `onMouseMove`. -/
def moveImageDrag (dx dy : ℚ) (st : FilmState) : FilmState :=
  match st.activeImageSceneId, st.imageStartSnapshot with
  | some sid, some snap =>
    { st with scenes := st.scenes.map (fun s =>
        match s.imageMeta with
        | some meta =>
          if s.id = sid then
            { s with imageMeta := some { meta with
              relX := snap.1 + dx,
              relY := snap.2 + dy } }
          else s
        | none => s) }
  | _, _ => st

/-- The scene-move branch of `onMouseMove` (multi-selection moves together,
vertical lane locked). -/
def moveSceneDrag (dx : ℚ) (sid : String) (snap : ℚ × ℚ × ℚ)
    (st : FilmState) : FilmState :=
  let newPos := roundToSnap st.snapEnabled st.snapStep
    (max 0 (snap.1 + dx / st.zoom))
  let lockedY := snap.2.2
  if st.multiSelIds ≠ [] ∧ sid ∈ st.multiSelIds then
    let deltaSec := newPos - snap.1
    { st with scenes := st.scenes.map (fun s =>
        if s.id ∈ st.multiSelIds then
          { s with
            positionSec := max 0 (s.positionSec + deltaSec),
            yPx := lockedY }
        else s) }
  else
    { st with scenes := st.scenes.map (fun s =>
        if s.id = sid then { s with positionSec := newPos, yPx := lockedY }
        else s) }

/-- The `resizeR`/`resizeL` branch of `onMouseMove`, including the ripple that
shifts every scene at or after the resized scene's old right edge. -/
def moveResizeDrag (dx : ℚ) (sid : String) (snap : ℚ × ℚ × ℚ)
    (st : FilmState) : FilmState :=
  let pl :=
    if st.dragMode = DragMode.resizeR then
      (snap.1, roundToSnap st.snapEnabled st.snapStep
        (max SCENE_MIN_SEC (snap.2.1 + dx / st.zoom)))
    else resizeLPosLen st.snapEnabled st.snapStep snap.1 snap.2.1 dx st.zoom
  let deltaLen := pl.2 - snap.2.1
  { st with scenes := st.scenes.map (fun s =>
      if s.id = sid then { s with positionSec := pl.1, lengthSec := pl.2 }
      else if deltaLen ≠ 0 ∧ snap.1 + snap.2.1 ≤ s.positionSec then
        { s with positionSec := max 0 (roundToSnap st.snapEnabled st.snapStep
          (s.positionSec + deltaLen)) }
      else s) }

/-- `onMouseMove`: apply the active drag mode's update from the pre-drag
snapshot refs and the total deltas; never touches the undo history. -/
def applyMouseMove (dx dy movementX x y : ℚ) (st : FilmState) : FilmState :=
  if !st.isMouseDown then st
  else if st.dragMode = DragMode.pan then { st with panX := st.panX + movementX }
  else if st.dragMode = DragMode.marquee then moveMarquee x y st
  else if st.dragMode = DragMode.note then moveNoteDrag dx dy st
  else if st.dragMode = DragMode.image then moveImageDrag dx dy st
  else
    match st.activeSceneId, st.sceneStartSnapshot with
    | some sid, some snap =>
      if st.dragMode = DragMode.scene then moveSceneDrag dx sid snap st
      else if st.dragMode = DragMode.resizeR ∨ st.dragMode = DragMode.resizeL then
        moveResizeDrag dx sid snap st
      else st
    | _, _ => st

/-- `endDrag` / `onMouseUp` / `onMouseLeave`: unconditional defensive reset of
the drag mode and every drag-session ref. -/
def endDrag (st : FilmState) : FilmState :=
  let st1 := { st with isMouseDown := false }
  let st2 :=
    if st.dragMode = DragMode.marquee then
      { st1 with
        selectedSceneId := none, selectedNoteId := none,
        selectedImageSceneId := none }
    else st1
  { st2 with
    dragMode := DragMode.none, activeSceneId := none,
    sceneStartSnapshot := none, activeNoteId := none, noteStartSnapshot := none,
    activeImageSceneId := none, imageStartSnapshot := none, marquee := none }

/-- The `while (existing.has(num)) num += 1` search for the next free scene
number; the fuel `taken.length + 1` strictly exceeds the number of possible
collisions, so the fuelled recursion computes the same number as the JS loop. -/
def nextFreeNumAux : ℕ → ℤ → List ℤ → ℤ
  | 0, cur, _ => cur
  | fuel + 1, cur, taken =>
    if cur ∈ taken then nextFreeNumAux fuel (cur + 1) taken else cur

/-- `pickColor(i)`: palette index modulo. -/
def pickColor (i : ℕ) : String :=
  let palette := ["#a78bfa", "#60a5fa", "#f472b6", "#34d399", "#fbbf24",
    "#38bdf8", "#fb7185", "#84cc16"]
  palette.getD (i % palette.length) "#a78bfa"

/-- `addScene()`: push history, create a scene at the (snapped) playhead with
the next free original number, auto-place it and append it. -/
def addScene (newId : String) (st : FilmState) : FilmState :=
  let existing := st.scenes.map (fun s => s.originalSceneNumber)
  let num := nextFreeNumAux (existing.length + 1) ((st.scenes.length : ℤ) + 1) existing
  let newScene : Scene :=
    { id := newId, originalSceneNumber := num, newSceneNumber := num,
      heading := "INT./EXT. LOCATION - DAY",
      description := "Describe action in screenplay format...",
      positionSec := roundToSnap st.snapEnabled st.snapStep st.playheadSec,
      lengthSec := 30, yPx := 8, color := pickColor st.scenes.length,
      collapsed := false, imageUrl := none, imageMeta := none, scriptLines := [] }
  let placed := autoPlaceByOriginalNumber st.snapEnabled st.snapStep newScene st.scenes
  { pushHistory st with
    scenes := st.scenes ++ [placed],
    selectedSceneId := some newId }

/-- `deleteSelectedScene()`: cascade-delete the scene's notes, then the scene. -/
def deleteSelectedScene (st : FilmState) : FilmState :=
  match st.selectedSceneId with
  | none => st
  | some sid =>
    { pushHistory st with
      notes := st.notes.filter (fun n => decide (n.sceneId ≠ sid)),
      scenes := st.scenes.filter (fun s => decide (s.id ≠ sid)),
      selectedSceneId := none }

/-- `updateHeading(e)`. -/
def updateHeading (v : String) (st : FilmState) : FilmState :=
  match st.selectedSceneId with
  | none => st
  | some sid =>
    { pushHistory st with scenes := st.scenes.map (fun s =>
        if s.id = sid then { s with heading := v } else s) }

/-- `updateLength(e)`: snap and floor the new length, and shift every scene
at or after the resized scene's old right edge by the length delta.  (When the
selected id is dangling the source's non-null assertion would throw inside the
`setScenes` callback, leaving the collections unchanged after the push.) -/
def updateLength (v : ℚ) (st : FilmState) : FilmState :=
  match st.selectedSceneId with
  | none => st
  | some sid =>
    let v2 := roundToSnap st.snapEnabled st.snapStep
      (max SCENE_MIN_SEC (if v = 0 then SCENE_MIN_SEC else v))
    match st.scenes.find? (fun s => decide (s.id = sid)) with
    | none => pushHistory st
    | some cur =>
      let delta := v2 - cur.lengthSec
      { pushHistory st with scenes := st.scenes.map (fun s =>
          if s.id = sid then { s with lengthSec := v2 }
          else if delta ≠ 0 ∧ cur.positionSec + cur.lengthSec ≤ s.positionSec then
            { s with positionSec := max 0 (roundToSnap st.snapEnabled st.snapStep
              (s.positionSec + delta)) }
          else s) }

/-- `updateOriginalNumber(e)` as a state operation. -/
def updateOriginalNumberOp (v : ℚ) (st : FilmState) : FilmState :=
  match st.selectedSceneId with
  | none => st
  | some sid =>
    { pushHistory st with
      scenes := (updateOriginalNumberScenes st.snapEnabled st.snapStep
        st.scenes sid v).1 }

/-- `addNoteToSelectedScene()`. -/
def addNoteToSelectedScene (newId : String) (st : FilmState) : FilmState :=
  match st.selectedSceneId with
  | none => st
  | some sid =>
    let sceneNotes := notesByScene st.notes sid
    let newNote : FilmNote :=
      { id := newId, sceneId := sid, text := "New note",
        order := (sceneNotes.length : ℚ), relX := 12, relY := 0,
        width := NOTE_DEFAULT_W, height := NOTE_DEFAULT_H }
    { pushHistory st with
      notes := st.notes ++ [newNote],
      selectedNoteId := some newId }

/-- `deleteSelectedNote()`. -/
def deleteSelectedNote (st : FilmState) : FilmState :=
  match st.selectedNoteId with
  | none => st
  | some nid =>
    { pushHistory st with
      notes := st.notes.filter (fun n => decide (n.id ≠ nid)),
      selectedNoteId := none }

/-- `moveNoteUp()`: swap `order` with the previous sibling (the push happens
before the updater decides whether a swap is possible). -/
def moveNoteUp (st : FilmState) : FilmState :=
  match st.selectedNoteId with
  | none => st
  | some nid =>
    let st1 := pushHistory st
    match st.notes.find? (fun n => decide (n.id = nid)) with
    | none => st1
    | some note =>
      let siblings := insSortByKey (fun n => n.order)
        (st.notes.filter (fun n => decide (n.sceneId = note.sceneId)))
      let idx := siblings.findIdx (fun n => decide (n.id = note.id))
      if idx = 0 ∨ siblings.length ≤ idx then st1
      else
        let above := siblings.getD (idx - 1) note
        { st1 with notes := st.notes.map (fun n =>
            if n.id = note.id then { n with order := above.order }
            else if n.id = above.id then { n with order := note.order }
            else n) }

/-- `moveNoteDown()`: swap `order` with the next sibling. -/
def moveNoteDown (st : FilmState) : FilmState :=
  match st.selectedNoteId with
  | none => st
  | some nid =>
    let st1 := pushHistory st
    match st.notes.find? (fun n => decide (n.id = nid)) with
    | none => st1
    | some note =>
      let siblings := insSortByKey (fun n => n.order)
        (st.notes.filter (fun n => decide (n.sceneId = note.sceneId)))
      let idx := siblings.findIdx (fun n => decide (n.id = note.id))
      if siblings.length ≤ idx + 1 then st1
      else
        let below := siblings.getD (idx + 1) note
        { st1 with notes := st.notes.map (fun n =>
            if n.id = note.id then { n with order := below.order }
            else if n.id = below.id then { n with order := note.order }
            else n) }

/-- `onClick`: scrub the playhead; in reattach mode with a selected note,
clicking a scene moves the note under that scene. -/
def clickReattach (x y : ℚ) (st : FilmState) : FilmState :=
  if st.isMouseDown then st
  else
    let st0 := { st with playheadSec := max 0 (cssToSec st.zoom st.panX x) }
    if st.reattachMode then
      match st.selectedNoteId with
      | none => st0
      | some nid =>
        match hitSceneAt st.zoom st.panX st.scenes x y with
        | none => st0
        | some (sc, _) =>
          let sceneNotes := notesByScene st.notes sc.id
          { pushHistory st0 with
            notes := st0.notes.map (fun n =>
              if n.id = nid then
                { n with
                  sceneId := sc.id, relX := 12, relY := 0,
                  order := (sceneNotes.length : ℚ) }
              else n),
            reattachMode := false }
    else st0

/-- `onImageChosen`: attach a picked image to the selected scene, keeping any
existing image meta and otherwise installing the default card. -/
def imageChosen (dataUrl : String) (st : FilmState) : FilmState :=
  match st.selectedSceneId with
  | none => st
  | some sid =>
    { pushHistory st with scenes := st.scenes.map (fun s =>
        if s.id = sid then
          { s with
            imageUrl := some dataUrl,
            imageMeta := some (s.imageMeta.getD
              { relX := 12, relY := 0, width := IMAGE_CARD_W,
                height := IMAGE_CARD_H,
                crop := some { xPct := 0, yPct := 0, wPct := 100, hPct := 100 } }) }
        else s) }

/-- `deleteSelectedImage()`. -/
def deleteSelectedImage (st : FilmState) : FilmState :=
  match st.selectedImageSceneId with
  | none => st
  | some sid =>
    { pushHistory st with
      scenes := st.scenes.map (fun s =>
        if s.id = sid then { s with imageUrl := none, imageMeta := none } else s),
      selectedImageSceneId := none }

/-- `saveCrop()`. -/
def saveCrop (st : FilmState) : FilmState :=
  match st.cropModalSceneId with
  | none => st
  | some sid =>
    { pushHistory st with
      scenes := st.scenes.map (fun s =>
        if s.id = sid then
          match s.imageMeta with
          | some m => { s with imageMeta := some { m with crop := some st.cropValues } }
          | none => s
        else s),
      cropModalSceneId := none }

/-- The film editor's discrete mutating operations (each a user action that
runs one event handler to completion). -/
inductive FilmOp
  | mouseDown (x y : ℚ)
  | endDragOp
  | addScene (newId : String)
  | deleteSelectedScene
  | updateHeading (v : String)
  | updateLength (v : ℚ)
  | updateOriginalNumber (v : ℚ)
  | addNote (newId : String)
  | deleteSelectedNote
  | moveNoteUp
  | moveNoteDown
  | clickReattach (x y : ℚ)
  | imageChosen (dataUrl : String)
  | deleteSelectedImage
  | saveCrop
deriving DecidableEq, Repr

/-- Dispatch one discrete operation. -/
def applyFilmOp : FilmOp → FilmState → FilmState
  | .mouseDown x y, st => applyMouseDown x y st
  | .endDragOp, st => endDrag st
  | .addScene newId, st => addScene newId st
  | .deleteSelectedScene, st => deleteSelectedScene st
  | .updateHeading v, st => updateHeading v st
  | .updateLength v, st => updateLength v st
  | .updateOriginalNumber v, st => updateOriginalNumberOp v st
  | .addNote newId, st => addNoteToSelectedScene newId st
  | .deleteSelectedNote, st => deleteSelectedNote st
  | .moveNoteUp, st => moveNoteUp st
  | .moveNoteDown, st => moveNoteDown st
  | .clickReattach x y, st => clickReattach x y st
  | .imageChosen dataUrl, st => imageChosen dataUrl st
  | .deleteSelectedImage, st => deleteSelectedImage st
  | .saveCrop, st => saveCrop st

/-- One pointer-move event (total deltas from drag start, plus the incremental
`movementX` and the absolute canvas point). -/
structure MoveEv where
  dx : ℚ
  dy : ℚ
  movementX : ℚ
  x : ℚ
  y : ℚ
deriving DecidableEq, Repr

/-- A sequence of pointer-move events. -/
def applyMoves (ms : List MoveEv) (st : FilmState) : FilmState :=
  ms.foldl (fun s m => applyMouseMove m.dx m.dy m.movementX m.x m.y s) st

/-- A concrete sample scene (used to instantiate universally quantified
theorems on explicit inputs). -/
def sampleScene : Scene :=
  { id := "s1", originalSceneNumber := 1, newSceneNumber := 1,
    heading := "INT. LOCATION - DAY", description := "", positionSec := 0,
    lengthSec := 10, yPx := 0, color := "#a78bfa", collapsed := false,
    imageUrl := none, imageMeta := none, scriptLines := [] }

/-- A second sample scene with a distinct id and number. -/
def sampleScene2 : Scene :=
  { sampleScene with id := "s2", originalSceneNumber := 2, positionSec := 20 }

/-- A concrete sample note attached to `sampleScene`, positioned so its card
overlaps the scene block. -/
def sampleNote : FilmNote :=
  { id := "n1", sceneId := "s1", text := "note", order := 0, relX := 0,
    relY := -60, width := 180, height := 110 }

/-- A concrete sample film state holding one scene and one note. -/
def sampleState : FilmState :=
  { scenes := [sampleScene], notes := [sampleNote], history := [], zoom := 120,
    panX := 0, playheadSec := 0, projectName := "Demo", snapEnabled := true,
    snapStep := 1, reattachMode := false, selectedSceneId := some "s1",
    selectedNoteId := some "n1", selectedImageSceneId := none,
    cropModalSceneId := none, cropValues := ⟨0, 0, 100, 100⟩,
    dragMode := DragMode.none, isMouseDown := false, activeSceneId := none,
    sceneStartSnapshot := none, activeNoteId := none, noteStartSnapshot := none,
    activeImageSceneId := none, imageStartSnapshot := none, marquee := none,
    multiSelIds := [] }

end Film

namespace Music

/-! ## Music waveform editor (`WaveformCanvas`) -/

def MIN_ZOOM : ℚ := 1
def MAX_ZOOM : ℚ := 300
def COLLAPSED_H : ℚ := 18
def TOGGLE_SIZE : ℚ := 12
def TOGGLE_PAD : ℚ := 4

/-- `cssToWorldTime(xCss) = (xCss - panX) / zoom`. -/
def cssToWorldTime (zoom panX xCss : ℚ) : ℚ := (xCss - panX) / zoom

/-- `worldTimeToCss(tSec) = tSec * zoom + panX`. -/
def worldTimeToCss (zoom panX tSec : ℚ) : ℚ := tSec * zoom + panX

/-- Finiteness-aware `cssToWorldTime` (the source divides without a zero guard). -/
def cssToWorldTimeFin (zoom panX xCss : ℚ) : Option ℚ := jsDivFin (xCss - panX) zoom

/-- `clampPanX(nextPan, nextZoom)`: identity when there is no audio duration or
no canvas width (the guard `if (!dur || !canvasW || !isFinite(dur)) return nextPan`),
otherwise clamps the pan between `-maxLeftSec * nextZoom` and `0`. -/
def clampPanX (dur canvasW nextPan nextZoom : ℚ) : ℚ :=
  if dur = 0 ∨ canvasW = 0 then nextPan
  else
    let viewSec := canvasW / max 1 nextZoom
    let maxLeftSec := max 0 (dur - viewSec)
    let minPan := -maxLeftSec * nextZoom
    max minPan (min 0 nextPan)

/-- The ctrl-wheel (pinch) zoom branch of `onWheel`: zoom about the cursor,
then clamp the pan.  `deltaYPos` is `e.deltaY > 0`. -/
def ctrlWheelZoom (zoom panX dur canvasW cursorX : ℚ) (deltaYPos : Bool) : ℚ × ℚ :=
  let worldUnder := (cursorX - panX) / zoom
  let factor : ℚ := if deltaYPos then 9/10 else 11/10
  let nextZoom := min MAX_ZOOM (max MIN_ZOOM (zoom * factor))
  let nextPan := clampPanX dur canvasW (cursorX - worldUnder * nextZoom) nextZoom
  (nextZoom, nextPan)

/-- The music editor's grid ladder `[0.5, 1, 2, 5, 10, 15, 30, 60, 120, 300]`. -/
def gridLadder : List ℚ := [1/2, 1, 2, 5, 10, 15, 30, 60, 120, 300]

/-- Music grid-step ladder selection (`pickGridStepSec`, music editor). -/
def pickGridStepSec (z : ℚ) : ℚ := firstGE gridLadder 600 (120 / z)

/-- One loop-handle drag-move step for handle A
(`setLoopA` updater inside `onMouseMove`): `s` is the already-snapped target
time; the result is clamped below the B bound, keeping a `0.01` s gap when
possible. -/
def loopDragStepA (loopB : Option ℚ) (s : ℚ) : Option ℚ :=
  let newA := max 0 s
  match loopB with
  | some b => if b ≤ newA then some (max 0 (b - 1/100)) else some newA
  | none => some newA

/-- One loop-handle drag-move step for handle B
(`setLoopB` updater inside `onMouseMove`). -/
def loopDragStepB (loopA : Option ℚ) (s : ℚ) : Option ℚ :=
  let newB := max 0 s
  match loopA with
  | some a => if newB ≤ a then some (a + 1/100) else some newB
  | none => some newB

/-- Which loop handle a drag event moves. -/
inductive LoopHandle
  | A
  | B
deriving DecidableEq, Repr

/-- One drag-move event applied to the `(loopA, loopB)` pair. -/
def loopDragStep (p : Option ℚ × Option ℚ) (ev : LoopHandle × ℚ) :
    Option ℚ × Option ℚ :=
  match ev.1 with
  | .A => (loopDragStepA p.2 ev.2, p.2)
  | .B => (p.1, loopDragStepB p.1 ev.2)

/-- A sequence of loop-handle drag-move events. -/
def applyLoopDrags (evs : List (LoopHandle × ℚ)) (p : Option ℚ × Option ℚ) :
    Option ℚ × Option ℚ :=
  evs.foldl loopDragStep p

/-- Toolbar "set loop A" button: `onSetLoopA={() => setLoopA(playheadSec)}`
(no ordering check). -/
def setLoopAButton (playheadSec : ℚ) : Option ℚ := some playheadSec

/-- Toolbar "set loop B" button: rejects (with an alert, the `Bool`) when
`loopA` is set and the playhead is not strictly after it. -/
def setLoopBButton (playheadSec : ℚ) (loopA loopB : Option ℚ) :
    Option ℚ × Bool :=
  match loopA with
  | some a => if playheadSec ≤ a then (loopB, true) else (some playheadSec, false)
  | none => (some playheadSec, false)

/-- The state from which a loop-handle drag can start (`hitTestLoopHandle`
requires both bounds set with `loopB > loopA`; every write to `loopA` keeps it
nonnegative). -/
def LoopInv (p : Option ℚ × Option ℚ) : Prop :=
  ∃ a b, p.1 = some a ∧ p.2 = some b ∧ 0 ≤ a ∧ a < b

/-- Music `Note` (`src/types/music.ts`). -/
structure Note where
  id : String
  timestampSec : ℚ
  xOffsetPx : ℚ
  yPx : ℚ
  text : String
  color : String
  w : ℚ
  h : ℚ
  collapsed : Bool
deriving DecidableEq, Repr

/-- Music `LyricsClip`. -/
structure LyricsClip where
  id : String
  text : String
  timestampSec : ℚ
  endSec : Option ℚ
  color : String
  w : Option ℚ
  h : Option ℚ
deriving DecidableEq, Repr

/-- Music `Marker`. -/
structure Marker where
  id : String
  sec : ℚ
  label : String
  color : String
deriving DecidableEq, Repr

/-- The `audioMeta` payload of a saved music project. -/
structure AudioMeta where
  fileName : Option String
  duration : Option ℚ
deriving DecidableEq, Repr

/-- Versioned music project file (`AudioProjectV1`), with every field optional
as in `loadProject`'s `Partial<AudioProjectV1>` view of untrusted JSON. -/
structure AudioProjectV1 where
  version : Option ℕ
  kind : Option String
  projectName : Option String
  zoom : Option ℚ
  panX : Option ℚ
  playheadSec : Option ℚ
  waveAmp : Option ℚ
  notes : Option (List Note)
  audioMeta : Option AudioMeta
deriving DecidableEq, Repr

/-- The ambient state of the music editor component (entity collections,
viewport, loop bounds, and toggles). -/
structure MusicState where
  notes : List Note
  markers : List Marker
  lyricsClips : List LyricsClip
  loopEnabled : Bool
  loopA : Option ℚ
  loopB : Option ℚ
  zoom : ℚ
  panX : ℚ
  panY : ℚ
  playheadSec : ℚ
  waveAmp : ℚ
  lyricsOffsetSec : ℚ
  projectName : String
  snappingEnabled : Bool
  dragMovesTimestamp : Bool
  audioMeta : Option AudioMeta
deriving DecidableEq, Repr

/-- `makeProject()` (music): saves only viewport, playhead, wave amplitude and
notes (markers, lyric clips and loop bounds are not serialized). -/
def makeProject (st : MusicState) : AudioProjectV1 :=
  { version := some 1, kind := some "dtmusic", projectName := some st.projectName,
    zoom := some st.zoom, panX := some st.panX, playheadSec := some st.playheadSec,
    waveAmp := some st.waveAmp, notes := some st.notes, audioMeta := st.audioMeta }

/-- `loadProject(data)` (music): validate `kind`/`version`/array shape of
`notes`, else throw; on success replace notes, viewport, playhead and wave
amplitude (no zoom clamp here), leaving markers, lyric clips and loop bounds
untouched. -/
def loadProject (st : MusicState) (p : AudioProjectV1) : Except String MusicState :=
  match p.notes with
  | some nt =>
    if p.kind = some "dtmusic" ∧ p.version = some 1 then
      Except.ok { st with
        notes := nt,
        zoom := p.zoom.getD st.zoom,
        panX := p.panX.getD 0,
        playheadSec := p.playheadSec.getD 0,
        waveAmp := p.waveAmp.getD st.waveAmp,
        projectName := jsStrOr (p.projectName.getD "") "Untitled Audio Project" }
    else Except.error "Invalid music project file"
  | none => Except.error "Invalid music project file"

/-- A concrete sample music note. -/
def sampleNote : Note :=
  { id := "n1", timestampSec := 4, xOffsetPx := 0, yPx := 120, text := "hook",
    color := "#fbbf24", w := 220, h := 140, collapsed := false }

/-- A concrete sample marker. -/
def sampleMarker : Marker :=
  { id := "m1", sec := 12, label := "verse", color := "#60a5fa" }

/-- A concrete sample lyric clip. -/
def sampleLyric : LyricsClip :=
  { id := "l1", text := "la la", timestampSec := 2, endSec := some 4,
    color := "#f472b6", w := none, h := none }

/-- A concrete sample music state holding one of each entity kind. -/
def sampleState : MusicState :=
  { notes := [sampleNote], markers := [sampleMarker],
    lyricsClips := [sampleLyric],
    loopEnabled := true, loopA := some 2, loopB := some 8, zoom := 100,
    panX := -20, panY := 0, playheadSec := 3, waveAmp := 22/100,
    lyricsOffsetSec := 0, projectName := "Song", snappingEnabled := false,
    dragMovesTimestamp := false, audioMeta := none }

end Music

/-! ## C1: pan/zoom round-trip -/

/-- C1: for every world time `t ≥ 0`, zoom `z > 0` and pan `p`, mapping world
time to screen X and back is the identity (hence within `1e-6`), for the shared
`timeToX`/`xToTime` pair and for the per-editor `secToCss`/`cssToSec`
(film) and `worldTimeToCss`/`cssToWorldTime` (music) pairs. -/
theorem roundtrip_world_screen_world (t z p : ℚ) (ht : 0 ≤ t) (hz : 0 < z) :
    xToTime (timeToX t z p) z p = t ∧
    Film.cssToSec z p (Film.secToCss z p t) = t ∧
    Music.cssToWorldTime z p (Music.worldTimeToCss z p t) = t ∧
    |xToTime (timeToX t z p) z p - t| ≤ 1/1000000 := by
  have hz' : z ≠ 0 := ne_of_gt hz
  have h1 : xToTime (timeToX t z p) z p = t := by
    simp [xToTime, timeToX]
    field_simp
  refine ⟨h1, ?_, ?_, ?_⟩
  · simp [Film.cssToSec, Film.secToCss]
    field_simp
  · simp [Music.cssToWorldTime, Music.worldTimeToCss]
    field_simp
  · rw [h1]
    simp

/-- Witness for C1 at `t = 3`, `z = 2`, `p = 5`. -/
theorem roundtrip_world_screen_world_witness :
    (0 ≤ (3:ℚ)) ∧ (0 < (2:ℚ)) ∧
    (xToTime (timeToX 3 2 5) 2 5 = 3 ∧
     Film.cssToSec 2 5 (Film.secToCss 2 5 3) = 3 ∧
     Music.cssToWorldTime 2 5 (Music.worldTimeToCss 2 5 3) = 3 ∧
     |xToTime (timeToX 3 2 5) 2 5 - 3| ≤ 1/1000000) :=
  ⟨by norm_num, by norm_num, roundtrip_world_screen_world 3 2 5 (by norm_num) (by norm_num)⟩

/-! ## C2: zoom-about-cursor invariance -/

/-- C2 counterexample: in the music editor's ctrl-wheel zoom branch, the final
pan clamp can move the world time under the cursor.  Starting from the valid
state `zoom = 1`, `panX = 0` (clamp-consistent for a 10 s track in a 100 px
canvas), zooming in (`deltaY < 0`, target zoom `1.1 ∈ [MIN_ZOOM, MAX_ZOOM]`)
at `cursorX = 50` clamps the computed pan `-5` to `0`, so the world time under
the cursor jumps from `50` to `500/11`. -/
theorem zoom_about_cursor_counterexample :
    Music.clampPanX 10 100 0 1 = 0 ∧
    Music.MIN_ZOOM ≤ 11/10 ∧ (11/10 : ℚ) ≤ Music.MAX_ZOOM ∧
    Music.ctrlWheelZoom 1 0 10 100 50 false = (11/10, 0) ∧
    Music.cssToWorldTime 1 0 50 = 50 ∧
    Music.cssToWorldTime (11/10) 0 50 = 500/11 ∧
    (500/11 : ℚ) ≠ 50 := by
  refine ⟨?_, ?_, ?_, ?_, ?_, ?_, by norm_num⟩ <;>
    norm_num [Music.clampPanX, Music.ctrlWheelZoom, Music.cssToWorldTime,
      Music.MIN_ZOOM, Music.MAX_ZOOM]

/-- C2 (amended): the film editor's `applyZoomAbout` stores the pan unclamped,
so for any starting `zoom > 0`, any pan, and any `nextZoom ∈ [MIN_ZOOM,
MAX_ZOOM]` the world time under the cursor is exactly unchanged.  In the music
editor's ctrl-wheel branch the same holds exactly whenever the final
`clampPanX` returns the computed pan unchanged (e.g. no audio loaded, zero
canvas width, or the computed pan already within bounds); when the clamp
engages, the world time under the cursor moves (see the counterexample). -/
theorem zoom_about_cursor_amended (zoom panX cursorX nextZoom dur canvasW : ℚ)
    (d : Bool) (hz : 0 < zoom)
    (h1 : Film.MIN_ZOOM ≤ nextZoom) (h2 : nextZoom ≤ Film.MAX_ZOOM)
    (hclamp : (Music.ctrlWheelZoom zoom panX dur canvasW cursorX d).2 =
      cursorX - ((cursorX - panX) / zoom) *
        (Music.ctrlWheelZoom zoom panX dur canvasW cursorX d).1) :
    Film.cssToSec (Film.applyZoomAbout zoom panX cursorX nextZoom).1
      (Film.applyZoomAbout zoom panX cursorX nextZoom).2 cursorX =
      Film.cssToSec zoom panX cursorX ∧
    Music.cssToWorldTime (Music.ctrlWheelZoom zoom panX dur canvasW cursorX d).1
      (Music.ctrlWheelZoom zoom panX dur canvasW cursorX d).2 cursorX =
      Music.cssToWorldTime zoom panX cursorX := by
  constructor
  · have hcz : Film.clampZoom nextZoom = nextZoom := by
      simp only [Film.clampZoom, Film.MIN_ZOOM, Film.MAX_ZOOM] at *
      rw [max_eq_right h1, min_eq_right h2]
    have hnz : nextZoom ≠ 0 := by
      have : (1:ℚ) ≤ nextZoom := by simpa [Film.MIN_ZOOM] using h1
      linarith
    simp only [Film.applyZoomAbout, Film.cssToSec, hcz]
    field_simp
    ring
  · set nz := (Music.ctrlWheelZoom zoom panX dur canvasW cursorX d).1 with hnzdef
    have hnz1 : (1:ℚ) ≤ nz := by
      simp only [hnzdef, Music.ctrlWheelZoom, Music.MIN_ZOOM, Music.MAX_ZOOM]
      have h300 : (1:ℚ) ≤ 300 := by norm_num
      exact le_min h300 (le_max_left _ _)
    have hnz0 : nz ≠ 0 := by linarith
    simp only [Music.cssToWorldTime, hclamp]
    field_simp
    ring

/-- Witness for C2 (amended) at `zoom = 2`, `panX = 3`, `cursorX = 7`,
`nextZoom = 4`, with no audio loaded (`dur = 0`, so the music pan clamp is the
identity). -/
theorem zoom_about_cursor_amended_witness :
    (0 < (2:ℚ)) ∧ (Film.MIN_ZOOM ≤ (4:ℚ)) ∧ ((4:ℚ) ≤ Film.MAX_ZOOM) ∧
    ((Music.ctrlWheelZoom 2 3 0 100 7 false).2 =
      7 - ((7 - 3) / 2) * (Music.ctrlWheelZoom 2 3 0 100 7 false).1) ∧
    (Film.cssToSec (Film.applyZoomAbout 2 3 7 4).1
      (Film.applyZoomAbout 2 3 7 4).2 7 = Film.cssToSec 2 3 7 ∧
     Music.cssToWorldTime (Music.ctrlWheelZoom 2 3 0 100 7 false).1
      (Music.ctrlWheelZoom 2 3 0 100 7 false).2 7 =
      Music.cssToWorldTime 2 3 7) := by
  have hc : (Music.ctrlWheelZoom 2 3 0 100 7 false).2 =
      7 - ((7 - 3) / 2) * (Music.ctrlWheelZoom 2 3 0 100 7 false).1 := by
    norm_num [Music.ctrlWheelZoom, Music.clampPanX, Music.MIN_ZOOM, Music.MAX_ZOOM]
  exact ⟨by norm_num, by norm_num [Film.MIN_ZOOM], by norm_num [Film.MAX_ZOOM], hc,
    zoom_about_cursor_amended 2 3 7 4 0 100 false (by norm_num)
      (by norm_num [Film.MIN_ZOOM]) (by norm_num [Film.MAX_ZOOM]) hc⟩

/-! ## C3: zero-zoom behaviour of the mapping functions -/

/-- C3 counterexample: the mapping functions have no zero-zoom guard.  At
`zoom = 0` with `panX = 0` and screen x `5`, the unguarded division in
`xToTime` / `cssToSec` / `cssToWorldTime` yields a non-finite value (`none`),
not the pre-transform value `5`. -/
theorem zero_zoom_identity_counterexample :
    xToTimeFin 5 0 0 = none ∧ xToTimeFin 5 0 0 ≠ some 5 ∧
    Film.cssToSecFin 0 0 5 = none ∧
    Music.cssToWorldTimeFin 0 0 5 = none := by
  refine ⟨?_, ?_, ?_, ?_⟩ <;>
    simp [xToTimeFin, Film.cssToSecFin, Music.cssToWorldTimeFin, jsDivFin]

/-- C3 (amended): the mapping functions `xToTime`, `cssToSec` and
`cssToWorldTime` take no viewport-width input and have no zero-zoom guard:
for every nonzero zoom (in particular every clamped zoom, which is at least
`MIN_ZOOM = 1`) they return the finite value `(x - panX) / zoom`, and at
`zoom = 0` they produce a non-finite value (see the counterexample).  The
identity fallback described by the spec exists in the music editor's
`clampPanX`, which returns its pan argument unchanged whenever the audio
duration or the canvas width is `0`. -/
theorem mapping_zero_zoom_amended (x z p dur canvasW pan : ℚ) (hz : z ≠ 0) :
    xToTimeFin x z p = some ((x - p) / z) ∧
    Film.cssToSecFin z p x = some ((x - p) / z) ∧
    Music.cssToWorldTimeFin z p x = some ((x - p) / z) ∧
    xToTime x z p = (x - p) / z ∧
    Music.clampPanX 0 canvasW pan z = pan ∧
    Music.clampPanX dur 0 pan z = pan := by
  refine ⟨?_, ?_, ?_, rfl, ?_, ?_⟩ <;>
    simp [xToTimeFin, Film.cssToSecFin, Music.cssToWorldTimeFin, jsDivFin,
      Music.clampPanX, hz]

/-- Witness for C3 (amended) at `x = 9`, `z = 3`, `p = 1`. -/
theorem mapping_zero_zoom_amended_witness :
    ((3:ℚ) ≠ 0) ∧
    (xToTimeFin 9 3 1 = some ((9 - 1) / 3) ∧
     Film.cssToSecFin 3 1 9 = some ((9 - 1) / 3) ∧
     Music.cssToWorldTimeFin 3 1 9 = some ((9 - 1) / 3) ∧
     xToTime 9 3 1 = (9 - 1) / 3 ∧
     Music.clampPanX 0 20 7 3 = 7 ∧
     Music.clampPanX 15 0 7 3 = 7) :=
  ⟨by norm_num, mapping_zero_zoom_amended 9 3 1 15 20 7 (by norm_num)⟩

/-! ## Helper lemmas about `firstGE` -/

theorem firstGE_cons (a : ℚ) (t : List ℚ) (d r : ℚ) :
    firstGE (a :: t) d r = if r ≤ a then a else firstGE t d r := by
  by_cases h : r ≤ a <;> simp [firstGE, List.find?_cons, h]

theorem firstGE_mem_le : ∀ {l : List ℚ} {d r : ℚ}, (∃ s ∈ l, r ≤ s) →
    firstGE l d r ∈ l ∧ r ≤ firstGE l d r := by
  intro l
  induction l with
  | nil => intro d r h; simp at h
  | cons a t ih =>
    intro d r h
    rw [firstGE_cons]
    by_cases ha : r ≤ a
    · simp [ha]
    · simp only [ha, if_false]
      obtain ⟨s, hs, hrs⟩ := h
      rcases List.mem_cons.mp hs with rfl | hst
      · exact absurd hrs ha
      · obtain ⟨h1, h2⟩ := ih ⟨s, hst, hrs⟩
        exact ⟨List.mem_cons_of_mem _ h1, h2⟩

theorem firstGE_min : ∀ {l : List ℚ}, l.Sorted (· ≤ ·) →
    ∀ {d r s : ℚ}, s ∈ l → r ≤ s → firstGE l d r ≤ s := by
  intro l
  induction l with
  | nil => intro _ d r s hs; simp at hs
  | cons a t ih =>
    intro hl d r s hs hrs
    rw [firstGE_cons]
    by_cases ha : r ≤ a
    · simp only [ha, if_true]
      rcases List.mem_cons.mp hs with rfl | hst
      · exact le_refl _
      · exact (List.sorted_cons.mp hl).1 s hst
    · simp only [ha, if_false]
      rcases List.mem_cons.mp hs with rfl | hst
      · exact absurd hrs ha
      · exact ih (List.sorted_cons.mp hl).2 hst hrs

theorem firstGE_anti {l : List ℚ} (hl : l.Sorted (· ≤ ·)) {d r1 r2 : ℚ}
    (hr : r1 ≤ r2) (h : ∃ s ∈ l, r2 ≤ s) :
    firstGE l d r1 ≤ firstGE l d r2 := by
  obtain ⟨hmem, hge⟩ := firstGE_mem_le h
  exact firstGE_min hl hmem (le_trans hr hge)

/-! ## C5: loop bound ordering under handle drags -/

/-- Each loop-handle drag-move step preserves the both-set ordering invariant. -/
theorem loopInv_step (p : Option ℚ × Option ℚ) (ev : Music.LoopHandle × ℚ)
    (h : Music.LoopInv p) : Music.LoopInv (Music.loopDragStep p ev) := by
  obtain ⟨a, b, ha, hb, ha0, hab⟩ := h
  obtain ⟨hd, s⟩ := ev
  have hb0 : 0 < b := lt_of_le_of_lt ha0 hab
  cases hd with
  | A =>
    simp only [Music.loopDragStep, Music.loopDragStepA, hb]
    by_cases hc : b ≤ max 0 s
    · refine ⟨max 0 (b - 1/100), b, by simp [hc], rfl, le_max_left _ _, ?_⟩
      rcases le_or_lt (b - 1/100) 0 with h0 | h0
      · rw [max_eq_left h0]; exact hb0
      · rw [max_eq_right (le_of_lt h0)]; linarith
    · exact ⟨max 0 s, b, by simp [hc], rfl, le_max_left _ _, lt_of_not_le hc⟩
  | B =>
    simp only [Music.loopDragStep, Music.loopDragStepB, ha]
    by_cases hc : max 0 s ≤ a
    · exact ⟨a, a + 1/100, rfl, by simp [hc], ha0, by linarith⟩
    · exact ⟨a, max 0 s, rfl, by simp [hc], ha0, lt_of_not_le hc⟩

/-- C5 counterexample: (i) the toolbar buttons can produce both bounds set
with `loopB < loopA` (the set-A button has no ordering check): set B at
playhead `5` with no A, then set A at playhead `10`, giving `loopA = 10`,
`loopB = 5`.  (ii) an A-handle drag crossing B when `loopB = 0.005` clamps A
to `0`, a separation of `0.005 < 0.01`. -/
theorem loop_ordering_counterexample :
    Music.setLoopBButton 5 none none = (some 5, false) ∧
    Music.setLoopAButton 10 = some 10 ∧
    ¬ ((5:ℚ) > 10) ∧
    Music.loopDragStepA (some (1/200)) 2 = some 0 ∧
    ((1/200 : ℚ) - 0 < 1/100) := by
  refine ⟨rfl, rfl, by norm_num, ?_, by norm_num⟩
  have h1 : max (0:ℚ) 2 = 2 := by norm_num
  have h2 : max (0:ℚ) (1/200 - 1/100) = 0 := by
    rw [max_eq_left]; norm_num
  simp only [Music.loopDragStepA, h1]
  rw [if_pos (by norm_num)]
  rw [h2]

/-- C5 (amended): drag-move steps on the loop handles preserve
`loopB > loopA` (starting, as every handle drag does, from a state with both
bounds set and ordered): over any sequence of drag events the bounds stay set
and strictly ordered, so no drag sequence produces `loopB < loopA`.  A
B-handle drag that would cross clamps to exactly `loopA + 0.01`; an A-handle
drag that would cross clamps to `max(0, loopB - 0.01)` (separation
`min(0.01, loopB)`, which is `0.01` whenever `loopB ≥ 0.01`).  In particular
with `loopA = 10`, dragging handle B to `5` yields `loopA = 10`,
`loopB = 10.01`.  The toolbar set-A button, by contrast, performs no ordering
check and can place `loopA` at or past `loopB` (see the counterexample). -/
theorem loop_drag_ordering_amended (evs : List (Music.LoopHandle × ℚ))
    (p : Option ℚ × Option ℚ) (h : Music.LoopInv p) :
    Music.LoopInv (Music.applyLoopDrags evs p) ∧
    (∀ a s : ℚ, max 0 s ≤ a → Music.loopDragStepB (some a) s = some (a + 1/100)) ∧
    (∀ b s : ℚ, b ≤ max 0 s → Music.loopDragStepA (some b) s = some (max 0 (b - 1/100))) ∧
    Music.applyLoopDrags [(Music.LoopHandle.B, 5)] (some 10, some 12) =
      (some 10, some (1001/100)) := by
  refine ⟨?_, ?_, ?_, ?_⟩
  · induction evs generalizing p with
    | nil => exact h
    | cons ev t ih => exact ih _ (loopInv_step p ev h)
  · intro a s hc
    simp [Music.loopDragStepB, hc]
  · intro b s hc
    simp [Music.loopDragStepA, hc]
  · have hc : max (0:ℚ) 5 ≤ 10 := by norm_num
    simp [Music.applyLoopDrags, Music.loopDragStep, Music.loopDragStepB, hc]
    norm_num

/-- Witness for C5 (amended): one B-handle drag event from the valid state
`(loopA, loopB) = (2, 8)`. -/
theorem loop_drag_ordering_amended_witness :
    Music.LoopInv (some 2, some 8) ∧
    (Music.LoopInv
        (Music.applyLoopDrags [(Music.LoopHandle.B, 3)] (some 2, some 8)) ∧
     (∀ a s : ℚ, max 0 s ≤ a → Music.loopDragStepB (some a) s = some (a + 1/100)) ∧
     (∀ b s : ℚ, b ≤ max 0 s → Music.loopDragStepA (some b) s = some (max 0 (b - 1/100))) ∧
     Music.applyLoopDrags [(Music.LoopHandle.B, 5)] (some 10, some 12) =
       (some 10, some (1001/100))) := by
  have hinv : Music.LoopInv (some 2, some 8) := ⟨2, 8, rfl, rfl, by norm_num, by norm_num⟩
  exact ⟨hinv, loop_drag_ordering_amended [(Music.LoopHandle.B, 3)] (some 2, some 8) hinv⟩

/-! ## C7: grid-step selection -/

/-- C7 counterexample: at zoom `48` (inside the music editor's clamped zoom
range), the music grid-step selector returns `5`, although `3` — an element of
the ladder stated by the spec (the film ladder) — already gives an on-screen
spacing `48 * 3 = 144 ≥ 120` that is closer to the 120 px target than
`48 * 5 = 240`.  The music selector's ladder omits `0.25` and `3`. -/
theorem grid_step_counterexample :
    Music.pickGridStepSec 48 = 5 ∧
    (3:ℚ) ∈ Film.gridLadder ∧
    Music.MIN_ZOOM ≤ 48 ∧ (48:ℚ) ≤ Music.MAX_ZOOM ∧
    (120:ℚ) ≤ 48 * 3 ∧ (48 * 3 : ℚ) < 48 * 5 := by
  refine ⟨?_, ?_, ?_, ?_, by norm_num, by norm_num⟩
  · norm_num [Music.pickGridStepSec, Music.gridLadder, firstGE_cons, firstGE]
  · simp [Film.gridLadder]
  · norm_num [Music.MIN_ZOOM]
  · norm_num [Music.MAX_ZOOM]

/-- C7 (amended): each editor's grid-step selector returns, for every zoom in
that editor's clamped range, the smallest element of *its own* ladder whose
on-screen spacing `z * step` is at least the 120 px target (hence the ladder
element with spacing closest to but not under the target), and the selection
is monotonically non-increasing in zoom.  The film ladder is the one stated by
the spec; the music ladder is `[0.5, 1, 2, 5, 10, 15, 30, 60, 120, 300]`. -/
theorem grid_step_selection_amended (z w : ℚ) (hz : 1 ≤ z) (hw : z ≤ w) :
    (z ≤ 500 →
      Film.pickGridStepSec z ∈ Film.gridLadder ∧
      120 ≤ z * Film.pickGridStepSec z ∧
      (∀ s ∈ Film.gridLadder, 120 ≤ z * s → Film.pickGridStepSec z ≤ s)) ∧
    Film.pickGridStepSec w ≤ Film.pickGridStepSec z ∧
    (z ≤ 300 →
      Music.pickGridStepSec z ∈ Music.gridLadder ∧
      120 ≤ z * Music.pickGridStepSec z ∧
      (∀ s ∈ Music.gridLadder, 120 ≤ z * s → Music.pickGridStepSec z ≤ s)) ∧
    Music.pickGridStepSec w ≤ Music.pickGridStepSec z := by
  have hz0 : (0:ℚ) < z := by linarith
  have hw1 : (1:ℚ) ≤ w := le_trans hz hw
  have hw0 : (0:ℚ) < w := by linarith
  have hsf : Film.gridLadder.Sorted (· ≤ ·) := by
    simp [Film.gridLadder, List.sorted_cons]
    norm_num
  have hsm : Music.gridLadder.Sorted (· ≤ ·) := by
    simp [Music.gridLadder, List.sorted_cons]
    norm_num
  have hdivz : 120 / z ≤ 120 := by
    calc 120 / z ≤ 120 / 1 := by
          rw [div_le_div_iff hz0 (by norm_num)]; linarith
      _ = 120 := by norm_num
  have hdivw : 120 / w ≤ 120 := by
    calc 120 / w ≤ 120 / 1 := by
          rw [div_le_div_iff hw0 (by norm_num)]; linarith
      _ = 120 := by norm_num
  have hexf : ∃ s ∈ Film.gridLadder, 120 / z ≤ s :=
    ⟨600, by simp [Film.gridLadder], by linarith⟩
  have hexm : ∃ s ∈ Music.gridLadder, 120 / z ≤ s :=
    ⟨300, by simp [Music.gridLadder], by linarith⟩
  have hwz : 120 / w ≤ 120 / z := by
    rw [div_le_div_iff hw0 hz0]; nlinarith
  refine ⟨?_, ?_, ?_, ?_⟩
  · intro _
    obtain ⟨hm, hg⟩ := firstGE_mem_le (d := 1200) hexf
    refine ⟨hm, ?_, ?_⟩
    · have := (div_le_iff hz0).mp hg
      calc (120:ℚ) ≤ Film.pickGridStepSec z * z := this
        _ = z * Film.pickGridStepSec z := mul_comm _ _
    · intro s hs h120
      apply firstGE_min hsf hs
      rw [div_le_iff hz0]
      calc (120:ℚ) ≤ z * s := h120
        _ = s * z := mul_comm _ _
  · exact firstGE_anti hsf hwz hexf
  · intro _
    obtain ⟨hm, hg⟩ := firstGE_mem_le (d := 600) hexm
    refine ⟨hm, ?_, ?_⟩
    · have := (div_le_iff hz0).mp hg
      calc (120:ℚ) ≤ Music.pickGridStepSec z * z := this
        _ = z * Music.pickGridStepSec z := mul_comm _ _
    · intro s hs h120
      apply firstGE_min hsm hs
      rw [div_le_iff hz0]
      calc (120:ℚ) ≤ z * s := h120
        _ = s * z := mul_comm _ _
  · exact firstGE_anti hsm hwz hexm

/-! ## C8: snapshot round-trip -/

/-- C8: in both editors, loading the snapshot produced by `makeProject` from a
state with at least one of each entity kind succeeds and reproduces an
observably identical entity model: same scenes, notes, zoom, panX and
playheadSec in the film editor; same notes, zoom, panX and playheadSec in the
music editor, with the collections the snapshot does not carry (markers,
lyric clips, loop bounds) left unchanged.  (Film zoom is re-clamped on load,
the identity for any in-range zoom, an invariant of every zoom write in that
editor.) -/
theorem snapshot_roundtrip (fs : Film.FilmState) (ms : Music.MusicState)
    (hz1 : Film.MIN_ZOOM ≤ fs.zoom) (hz2 : fs.zoom ≤ Film.MAX_ZOOM)
    (hfs : fs.scenes ≠ []) (hfn : fs.notes ≠ [])
    (hmn : ms.notes ≠ []) (hmk : ms.markers ≠ []) (hml : ms.lyricsClips ≠ [])
    (hla : ms.loopA.isSome) (hlb : ms.loopB.isSome) :
    (∃ fs2, Film.loadProject fs (Film.makeProject fs) = Except.ok fs2 ∧
      fs2.scenes = fs.scenes ∧ fs2.notes = fs.notes ∧ fs2.zoom = fs.zoom ∧
      fs2.panX = fs.panX ∧ fs2.playheadSec = fs.playheadSec) ∧
    (∃ ms2, Music.loadProject ms (Music.makeProject ms) = Except.ok ms2 ∧
      ms2.notes = ms.notes ∧ ms2.zoom = ms.zoom ∧ ms2.panX = ms.panX ∧
      ms2.playheadSec = ms.playheadSec ∧ ms2.markers = ms.markers ∧
      ms2.lyricsClips = ms.lyricsClips ∧ ms2.loopA = ms.loopA ∧
      ms2.loopB = ms.loopB) := by
  have hcz : Film.clampZoom fs.zoom = fs.zoom := by
    unfold Film.clampZoom
    rw [max_eq_right hz1, min_eq_right hz2]
  constructor
  · refine ⟨{ fs with projectName := jsStrOr fs.projectName "Untitled Project" },
      ?_, rfl, rfl, rfl, rfl, rfl⟩
    simp only [Film.loadProject, Film.makeProject, Option.getD_some]
    simp [hcz]
  · refine ⟨{ ms with projectName := jsStrOr ms.projectName "Untitled Audio Project" },
      ?_, rfl, rfl, rfl, rfl, rfl, rfl, rfl, rfl⟩
    simp only [Music.loadProject, Music.makeProject, Option.getD_some]
    simp

/-- Witness for C8 on the sample film and music states. -/
theorem snapshot_roundtrip_witness :
    (Film.MIN_ZOOM ≤ Film.sampleState.zoom ∧
     Film.sampleState.zoom ≤ Film.MAX_ZOOM ∧
     Film.sampleState.scenes ≠ [] ∧ Film.sampleState.notes ≠ [] ∧
     Music.sampleState.notes ≠ [] ∧ Music.sampleState.markers ≠ [] ∧
     Music.sampleState.lyricsClips ≠ [] ∧
     Music.sampleState.loopA.isSome ∧ Music.sampleState.loopB.isSome) ∧
    ((∃ fs2, Film.loadProject Film.sampleState (Film.makeProject Film.sampleState) =
        Except.ok fs2 ∧
      fs2.scenes = Film.sampleState.scenes ∧ fs2.notes = Film.sampleState.notes ∧
      fs2.zoom = Film.sampleState.zoom ∧ fs2.panX = Film.sampleState.panX ∧
      fs2.playheadSec = Film.sampleState.playheadSec) ∧
     (∃ ms2, Music.loadProject Music.sampleState (Music.makeProject Music.sampleState) =
        Except.ok ms2 ∧
      ms2.notes = Music.sampleState.notes ∧ ms2.zoom = Music.sampleState.zoom ∧
      ms2.panX = Music.sampleState.panX ∧
      ms2.playheadSec = Music.sampleState.playheadSec ∧
      ms2.markers = Music.sampleState.markers ∧
      ms2.lyricsClips = Music.sampleState.lyricsClips ∧
      ms2.loopA = Music.sampleState.loopA ∧ ms2.loopB = Music.sampleState.loopB)) :=
  ⟨⟨by norm_num [Film.sampleState, Film.MIN_ZOOM],
    by norm_num [Film.sampleState, Film.MAX_ZOOM],
    by simp [Film.sampleState], by simp [Film.sampleState],
    by simp [Music.sampleState], by simp [Music.sampleState],
    by simp [Music.sampleState], by simp [Music.sampleState],
    by simp [Music.sampleState]⟩,
   snapshot_roundtrip Film.sampleState Music.sampleState
     (by norm_num [Film.sampleState, Film.MIN_ZOOM])
     (by norm_num [Film.sampleState, Film.MAX_ZOOM])
     (by simp [Film.sampleState]) (by simp [Film.sampleState])
     (by simp [Music.sampleState]) (by simp [Music.sampleState])
     (by simp [Music.sampleState]) (by simp [Music.sampleState])
     (by simp [Music.sampleState])⟩

/-! ## C4: hit-test priority (note over scene) -/

/-- If some element of the list satisfies the boolean predicate, `find?`
returns something. -/
theorem find?_isSome_of_mem {α} {l : List α} {f : α → Bool} {a : α}
    (ha : a ∈ l) (hf : f a = true) : (l.find? f).isSome := by
  induction l with
  | nil => simp at ha
  | cons b t ih =>
    rcases List.mem_cons.mp ha with rfl | hat
    · simp [List.find?_cons, hf]
    · cases hfb : f b
      · simpa [List.find?_cons, hfb] using ih hat
      · simp [List.find?_cons, hfb]

/-- If `f` succeeds on some element of the list, `findSome?` succeeds. -/
theorem findSome?_isSome_of_mem {α β} {l : List α} {f : α → Option β} {a : α}
    (ha : a ∈ l) (hf : (f a).isSome) : (l.findSome? f).isSome := by
  induction l with
  | nil => simp at ha
  | cons b t ih =>
    rcases List.mem_cons.mp ha with rfl | hat
    · obtain ⟨v, hv⟩ := Option.isSome_iff_exists.mp hf
      simp [List.findSome?_cons, hv]
    · cases hfb : f b with
      | none => simpa [List.findSome?_cons, hfb] using ih hat
      | some v => simp [List.findSome?_cons, hfb]

/-- The body rectangle of a scene block as used by `hitSceneAt`. -/
def Film.sceneBodyRect (zoom panX : ℚ) (s : Film.Scene) : Film.Rect :=
  ⟨Film.secToCss zoom panX s.positionSec, s.yPx + 4, s.lengthSec * zoom,
   if s.collapsed then Film.COLLAPSED_H else Film.ROW_HEIGHT - 6 + Film.FOOTER_H⟩

/-- C4: whenever the pointer-down point lies inside some note's laid-out
rectangle — even if it also lies inside a scene's body rectangle — the
`onMouseDown` hit chain resolves to a note (a note drag starts), never to the
scene. -/
theorem note_over_scene_hit_priority (zoom panX : ℚ) (scenes : List Film.Scene)
    (notes : List Film.FilmNote) (x y : ℚ)
    (hn : ∃ s ∈ scenes, ∃ it ∈ Film.getSceneNotesStack zoom panX scenes notes s.id,
      Film.insideRect it.rect x y = true)
    (hs : ∃ s ∈ scenes, Film.insideRect (Film.sceneBodyRect zoom panX s) x y = true) :
    ∃ s n, Film.mouseDownHit zoom panX scenes notes x y =
      Film.MouseDownHit.note s n := by
  obtain ⟨s, hsmem, it, hitmem, hin⟩ := hn
  have hfind : ((Film.getSceneNotesStack zoom panX scenes notes s.id).reverse.find?
      (fun it => Film.insideRect it.rect x y)).isSome :=
    find?_isSome_of_mem (List.mem_reverse.mpr hitmem) hin
  have hnote : (Film.hitNoteAt zoom panX scenes notes x y).isSome := by
    apply findSome?_isSome_of_mem (List.mem_reverse.mpr hsmem)
    simpa [Option.isSome_map] using hfind
  obtain ⟨⟨s2, n2⟩, hsome⟩ := Option.isSome_iff_exists.mp hnote
  exact ⟨s2, n2, by simp [Film.mouseDownHit, hsome]⟩

/-- Witness for C4: at zoom 1, pan 0, the point `(5, 50)` lies inside both
the sample note's card and the sample scene's body; the hit chain returns the
note. -/
theorem note_over_scene_hit_priority_witness :
    (∃ s ∈ [Film.sampleScene],
      ∃ it ∈ Film.getSceneNotesStack 1 0 [Film.sampleScene] [Film.sampleNote] s.id,
        Film.insideRect it.rect 5 50 = true) ∧
    (∃ s ∈ [Film.sampleScene],
      Film.insideRect (Film.sceneBodyRect 1 0 s) 5 50 = true) ∧
    (∃ s n, Film.mouseDownHit 1 0 [Film.sampleScene] [Film.sampleNote] 5 50 =
      Film.MouseDownHit.note s n) := by
  have hstack : ∃ s ∈ [Film.sampleScene],
      ∃ it ∈ Film.getSceneNotesStack 1 0 [Film.sampleScene] [Film.sampleNote] s.id,
        Film.insideRect it.rect 5 50 = true := by
    refine ⟨Film.sampleScene, by simp, ?_⟩
    simp only [Film.getSceneNotesStack, Film.notesByScene, Film.getImageRectCss,
      Film.baseNotesY, Film.secToCss, Film.insideRect, Film.StackItem.rect,
      Film.sampleScene, Film.sampleNote, insSortByKey, insByKey, mapWithIndex,
      mapWithIndexFrom, Film.NOTE_GAP_Y, Film.NOTE_DEFAULT_H, Film.ROW_HEIGHT,
      Film.FOOTER_H, Film.COLLAPSED_H, List.filter, List.find?]
    norm_num
  have hbody : ∃ s ∈ [Film.sampleScene],
      Film.insideRect (Film.sceneBodyRect 1 0 s) 5 50 = true := by
    refine ⟨Film.sampleScene, by simp, ?_⟩
    simp only [Film.sceneBodyRect, Film.insideRect, Film.secToCss,
      Film.sampleScene, Film.ROW_HEIGHT, Film.FOOTER_H, Film.COLLAPSED_H]
    norm_num
  exact ⟨hstack, hbody,
    note_over_scene_hit_priority 1 0 [Film.sampleScene] [Film.sampleNote] 5 50
      hstack hbody⟩

/-! ## C10: history push and undo -/

/-- The relation the undo machinery maintains for one discrete operation:
either the operation left the collections and the history alone, or it first
pushed the pre-operation collections, and `undo` restores them exactly while
popping the entry. -/
def Film.HistoryDichotomy (base st2 : Film.FilmState) : Prop :=
  (st2.scenes = base.scenes ∧ st2.notes = base.notes ∧
    st2.history = base.history) ∨
  (st2.history = base.history ++ [(base.scenes, base.notes)] ∧
    (Film.undo st2).scenes = base.scenes ∧ (Film.undo st2).notes = base.notes ∧
    (Film.undo st2).history = base.history)

/-- `undo` after a push restores the pushed collections and pops the entry. -/
theorem undo_after_push {base : Film.FilmState} (st2 : Film.FilmState)
    (h : st2.history = base.history ++ [(base.scenes, base.notes)]) :
    (Film.undo st2).scenes = base.scenes ∧ (Film.undo st2).notes = base.notes ∧
    (Film.undo st2).history = base.history := by
  have hlast : st2.history.getLast? = some (base.scenes, base.notes) := by
    rw [h]; simp
  have hdrop : st2.history.dropLast = base.history := by
    rw [h]; simp
  simp [Film.undo, hlast, hdrop]

/-- A state whose history is the base's plus the base's collections satisfies
the dichotomy (right case). -/
theorem dichotomy_of_push {base st2 : Film.FilmState}
    (h : st2.history = base.history ++ [(base.scenes, base.notes)]) :
    Film.HistoryDichotomy base st2 :=
  Or.inr ⟨h, undo_after_push st2 h⟩

theorem moveMarquee_keeps_history (x y : ℚ) (st : Film.FilmState) :
    (Film.moveMarquee x y st).history = st.history := by
  unfold Film.moveMarquee
  repeat' split
  all_goals rfl

theorem moveNoteDrag_keeps_history (dx dy : ℚ) (st : Film.FilmState) :
    (Film.moveNoteDrag dx dy st).history = st.history := by
  unfold Film.moveNoteDrag
  repeat' split
  all_goals rfl

theorem moveImageDrag_keeps_history (dx dy : ℚ) (st : Film.FilmState) :
    (Film.moveImageDrag dx dy st).history = st.history := by
  unfold Film.moveImageDrag
  repeat' split
  all_goals rfl

theorem moveSceneDrag_keeps_history (dx : ℚ) (sid : String) (snap : ℚ × ℚ × ℚ)
    (st : Film.FilmState) :
    (Film.moveSceneDrag dx sid snap st).history = st.history := by
  unfold Film.moveSceneDrag
  repeat' split
  all_goals rfl

theorem moveResizeDrag_keeps_history (dx : ℚ) (sid : String) (snap : ℚ × ℚ × ℚ)
    (st : Film.FilmState) :
    (Film.moveResizeDrag dx sid snap st).history = st.history := by
  unfold Film.moveResizeDrag
  repeat' split
  all_goals rfl

/-- `onMouseMove` never touches the undo history. -/
theorem move_keeps_history (dx dy mx x y : ℚ) (st : Film.FilmState) :
    (Film.applyMouseMove dx dy mx x y st).history = st.history := by
  unfold Film.applyMouseMove
  repeat' split
  all_goals first
    | rfl
    | apply moveMarquee_keeps_history
    | apply moveNoteDrag_keeps_history
    | apply moveImageDrag_keeps_history
    | apply moveSceneDrag_keeps_history
    | apply moveResizeDrag_keeps_history

/-- A sequence of pointer moves never touches the undo history. -/
theorem moves_keep_history (ms : List Film.MoveEv) (st : Film.FilmState) :
    (Film.applyMoves ms st).history = st.history := by
  induction ms generalizing st with
  | nil => rfl
  | cons m t ih =>
    calc (Film.applyMoves (m :: t) st).history
        = (Film.applyMouseMove m.dx m.dy m.movementX m.x m.y st).history :=
          ih _
      _ = st.history := move_keeps_history _ _ _ _ _ _

/-- C10: every discrete mutating film-editor operation either leaves the
collections and the history unchanged (its guard did not fire) or first
pushes the pre-operation scenes and notes, in which case `undo` restores both
collections exactly and pops the entry.  Pointer-move events never touch the
history, so after a drag (`mouseDown` that pushed, followed by any move
sequence) `undo` restores the pre-drag collections.  `undo` on an empty
history leaves the state unchanged. -/
theorem film_history_undo (op : Film.FilmOp) (st : Film.FilmState)
    (moves : List Film.MoveEv) (x y : ℚ) :
    Film.HistoryDichotomy st (Film.applyFilmOp op st) ∧
    (Film.applyMoves moves st).history = st.history ∧
    (st.history = [] → Film.undo st = st) ∧
    ((Film.applyMouseDown x y st).history =
        st.history ++ [(st.scenes, st.notes)] →
      (Film.undo (Film.applyMoves moves (Film.applyMouseDown x y st))).scenes =
          st.scenes ∧
      (Film.undo (Film.applyMoves moves (Film.applyMouseDown x y st))).notes =
          st.notes ∧
      (Film.undo (Film.applyMoves moves (Film.applyMouseDown x y st))).history =
          st.history) := by
  refine ⟨?_, moves_keep_history moves st, ?_, ?_⟩
  · cases op with
    | mouseDown a b =>
      simp only [Film.applyFilmOp, Film.applyMouseDown]
      repeat' split
      all_goals first
        | exact Or.inl ⟨rfl, rfl, rfl⟩
        | exact dichotomy_of_push rfl
    | endDragOp =>
      simp only [Film.applyFilmOp, Film.endDrag]
      repeat' split
      all_goals first
        | exact Or.inl ⟨rfl, rfl, rfl⟩
        | exact dichotomy_of_push rfl
    | addScene newId =>
      simp only [Film.applyFilmOp, Film.addScene]
      exact dichotomy_of_push rfl
    | deleteSelectedScene =>
      simp only [Film.applyFilmOp, Film.deleteSelectedScene]
      repeat' split
      all_goals first
        | exact Or.inl ⟨rfl, rfl, rfl⟩
        | exact dichotomy_of_push rfl
    | updateHeading v =>
      simp only [Film.applyFilmOp, Film.updateHeading]
      repeat' split
      all_goals first
        | exact Or.inl ⟨rfl, rfl, rfl⟩
        | exact dichotomy_of_push rfl
    | updateLength v =>
      simp only [Film.applyFilmOp, Film.updateLength]
      repeat' split
      all_goals first
        | exact Or.inl ⟨rfl, rfl, rfl⟩
        | exact dichotomy_of_push rfl
    | updateOriginalNumber v =>
      simp only [Film.applyFilmOp, Film.updateOriginalNumberOp]
      repeat' split
      all_goals first
        | exact Or.inl ⟨rfl, rfl, rfl⟩
        | exact dichotomy_of_push rfl
    | addNote newId =>
      simp only [Film.applyFilmOp, Film.addNoteToSelectedScene]
      repeat' split
      all_goals first
        | exact Or.inl ⟨rfl, rfl, rfl⟩
        | exact dichotomy_of_push rfl
    | deleteSelectedNote =>
      simp only [Film.applyFilmOp, Film.deleteSelectedNote]
      repeat' split
      all_goals first
        | exact Or.inl ⟨rfl, rfl, rfl⟩
        | exact dichotomy_of_push rfl
    | moveNoteUp =>
      simp only [Film.applyFilmOp, Film.moveNoteUp]
      repeat' split
      all_goals first
        | exact Or.inl ⟨rfl, rfl, rfl⟩
        | exact dichotomy_of_push rfl
    | moveNoteDown =>
      simp only [Film.applyFilmOp, Film.moveNoteDown]
      repeat' split
      all_goals first
        | exact Or.inl ⟨rfl, rfl, rfl⟩
        | exact dichotomy_of_push rfl
    | clickReattach a b =>
      simp only [Film.applyFilmOp, Film.clickReattach]
      repeat' split
      all_goals first
        | exact Or.inl ⟨rfl, rfl, rfl⟩
        | exact dichotomy_of_push rfl
    | imageChosen dataUrl =>
      simp only [Film.applyFilmOp, Film.imageChosen]
      repeat' split
      all_goals first
        | exact Or.inl ⟨rfl, rfl, rfl⟩
        | exact dichotomy_of_push rfl
    | deleteSelectedImage =>
      simp only [Film.applyFilmOp, Film.deleteSelectedImage]
      repeat' split
      all_goals first
        | exact Or.inl ⟨rfl, rfl, rfl⟩
        | exact dichotomy_of_push rfl
    | saveCrop =>
      simp only [Film.applyFilmOp, Film.saveCrop]
      repeat' split
      all_goals first
        | exact Or.inl ⟨rfl, rfl, rfl⟩
        | exact dichotomy_of_push rfl
  · intro h
    simp [Film.undo, h]
  · intro hp
    apply undo_after_push
    rw [moves_keep_history]
    exact hp

/-- Witness for C10: the `addScene` operation on the sample state, with an
empty move sequence and the pointer at the origin. -/
theorem film_history_undo_witness :
    Film.HistoryDichotomy Film.sampleState
      (Film.applyFilmOp (Film.FilmOp.addScene "s9") Film.sampleState) ∧
    (Film.applyMoves [] Film.sampleState).history = Film.sampleState.history ∧
    (Film.sampleState.history = [] → Film.undo Film.sampleState = Film.sampleState) ∧
    ((Film.applyMouseDown 0 0 Film.sampleState).history =
        Film.sampleState.history ++
          [(Film.sampleState.scenes, Film.sampleState.notes)] →
      (Film.undo (Film.applyMoves [] (Film.applyMouseDown 0 0 Film.sampleState))).scenes =
          Film.sampleState.scenes ∧
      (Film.undo (Film.applyMoves [] (Film.applyMouseDown 0 0 Film.sampleState))).notes =
          Film.sampleState.notes ∧
      (Film.undo (Film.applyMoves [] (Film.applyMouseDown 0 0 Film.sampleState))).history =
          Film.sampleState.history) :=
  film_history_undo (Film.FilmOp.addScene "s9") Film.sampleState [] 0 0

/-! ## C9: unique scene numbers -/

/-- Renumbering the scenes whose id is `cid` to `w` keeps the number list
duplicate-free, provided ids are unique and no scene with a different id
already uses `w`. -/
theorem nodup_num_after_renumber :
    ∀ (l : List Film.Scene) (cid : String) (w : ℤ),
      (l.map (fun s => s.originalSceneNumber)).Nodup →
      (∀ s ∈ l, s.id ≠ cid → s.originalSceneNumber ≠ w) →
      (l.map (fun s => s.id)).Nodup →
      ((l.map (fun s =>
          if s.id = cid then { s with originalSceneNumber := w } else s)).map
        (fun s => s.originalSceneNumber)).Nodup := by
  intro l cid w
  induction l with
  | nil => intro _ _ _; simp
  | cons a t ih =>
    intro hnum hno hid
    simp only [List.map_cons, List.nodup_cons] at hnum hid
    obtain ⟨hanum, htnum⟩ := hnum
    obtain ⟨haid, htid⟩ := hid
    have htne : ∀ s ∈ t, s.id ≠ a.id := by
      intro s hs h
      exact haid (h ▸ List.mem_map_of_mem (fun x => x.id) hs)
    by_cases hac : a.id = cid
    · have htail : t.map (fun s =>
          if s.id = cid then { s with originalSceneNumber := w } else s) = t := by
        have h1 : t.map (fun s =>
            if s.id = cid then { s with originalSceneNumber := w } else s) = t.map id :=
          List.map_congr_left (fun s hs => by rw [if_neg (hac ▸ htne s hs)]; rfl)
        simpa using h1
      simp only [List.map_cons, if_pos hac, htail, List.nodup_cons]
      refine ⟨?_, htnum⟩
      intro hmem
      obtain ⟨s, hs, hseq⟩ := List.mem_map.mp hmem
      exact hno s (List.mem_cons_of_mem _ hs) (hac ▸ htne s hs) hseq
    · simp only [List.map_cons, if_neg hac, List.nodup_cons]
      constructor
      · intro hmem
        obtain ⟨x, hx, hxeq⟩ := List.mem_map.mp hmem
        obtain ⟨s0, hs0, hs0eq⟩ := List.mem_map.mp hx
        by_cases hs0c : s0.id = cid
        · rw [if_pos hs0c] at hs0eq
          apply hno a (List.mem_cons_self a t) hac
          rw [← hxeq, ← hs0eq]
        · rw [if_neg hs0c] at hs0eq
          apply hanum
          rw [← hxeq, ← hs0eq]
          exact List.mem_map_of_mem (fun s => s.originalSceneNumber) hs0
      · exact ih htnum (fun s hs h => hno s (List.mem_cons_of_mem _ hs) h) htid

/-- Elements of the renumbered list that kept an id equal to `cid` carry the
number `w`. -/
theorem renumbered_id_num (l : List Film.Scene) (cid : String) (w : ℤ) :
    ∀ x ∈ l.map (fun s =>
        if s.id = cid then { s with originalSceneNumber := w } else s),
      x.id = cid → x.originalSceneNumber = w := by
  intro x hx hxid
  obtain ⟨s0, hs0, hs0eq⟩ := List.mem_map.mp hx
  by_cases hc : s0.id = cid
  · rw [if_pos hc] at hs0eq
    rw [← hs0eq]
  · rw [if_neg hc] at hs0eq
    exact absurd (hs0eq ▸ hxid) hc

/-- C9: starting from a scenes collection with unique ids and unique
`originalSceneNumber`s, `updateOriginalNumber` always leaves the numbers
unique; and when the requested number is already used by another scene, the
collection is returned unchanged and the caller is informed (the alert). -/
theorem unique_scene_numbers (se : Bool) (stp : ℚ) (scenes : List Film.Scene)
    (selId : String) (v : ℚ)
    (hid : (scenes.map (fun s => s.id)).Nodup)
    (hnum : (scenes.map (fun s => s.originalSceneNumber)).Nodup) :
    ((Film.updateOriginalNumberScenes se stp scenes selId v).1.map
      (fun s => s.originalSceneNumber)).Nodup ∧
    (∀ cur, scenes.find? (fun s => decide (s.id = selId)) = some cur →
      (∃ s ∈ scenes, s.id ≠ cur.id ∧
        s.originalSceneNumber = max 1 ⌊Film.jsNumOr1 v⌋) →
      Film.updateOriginalNumberScenes se stp scenes selId v = (scenes, true)) := by
  constructor
  · unfold Film.updateOriginalNumberScenes
    cases hfind : scenes.find? (fun s => decide (s.id = selId)) with
    | none => simpa using hnum
    | some cur =>
      simp only
      by_cases hdup : scenes.any (fun s =>
          decide (s.id ≠ cur.id) && decide (s.originalSceneNumber = max 1 ⌊Film.jsNumOr1 v⌋)) = true
      · rw [if_pos hdup]
        exact hnum
      · rw [if_neg hdup]
        have hno : ∀ s ∈ scenes, s.id ≠ cur.id →
            s.originalSceneNumber ≠ max 1 ⌊Film.jsNumOr1 v⌋ := by
          intro s hs h1 h2
          exact hdup (List.any_eq_true.mpr ⟨s, hs, by simp [h1, h2]⟩)
        have hupd := nodup_num_after_renumber scenes cur.id (max 1 ⌊Film.jsNumOr1 v⌋)
          hnum hno hid
        set updated := scenes.map (fun s =>
          if s.id = cur.id then { s with originalSceneNumber := max 1 ⌊Film.jsNumOr1 v⌋ } else s)
          with hupddef
        cases hfind2 : updated.find? (fun s => decide (s.id = cur.id)) with
        | none => simpa using hupd
        | some c =>
          simp only
          have hcid : c.id = cur.id := by
            have := List.find?_some hfind2
            simpa using this
          have hplid : (Film.autoPlaceByOriginalNumber se stp c
              (updated.filter (fun s => decide (s.id ≠ cur.id)))).id = c.id := rfl
          have hplnum : (Film.autoPlaceByOriginalNumber se stp c
              (updated.filter (fun s => decide (s.id ≠ cur.id)))).originalSceneNumber =
              c.originalSceneNumber := rfl
          set placed := Film.autoPlaceByOriginalNumber se stp c
            (updated.filter (fun s => decide (s.id ≠ cur.id))) with hpl
          have hmapeq : (updated.map (fun s => if s.id = placed.id then placed else s)).map
              (fun s => s.originalSceneNumber) =
              updated.map (fun s => s.originalSceneNumber) := by
            rw [List.map_map]
            apply List.map_congr_left
            intro s hs
            simp only [Function.comp]
            by_cases hsp : s.id = placed.id
            · rw [if_pos hsp, hplnum]
              have hsnum := renumbered_id_num scenes cur.id (max 1 ⌊Film.jsNumOr1 v⌋) s hs
                (by rw [hsp, hplid, hcid])
              have hcnum := renumbered_id_num scenes cur.id (max 1 ⌊Film.jsNumOr1 v⌋) c
                (List.mem_of_find?_eq_some hfind2) hcid
              rw [hcnum, hsnum]
            · rw [if_neg hsp]
          simpa [hmapeq] using hupd
  · intro cur hfind hdup
    have hany : scenes.any (fun s =>
        decide (s.id ≠ cur.id) && decide (s.originalSceneNumber = max 1 ⌊Film.jsNumOr1 v⌋)) = true := by
      obtain ⟨s, hs, h1, h2⟩ := hdup
      exact List.any_eq_true.mpr ⟨s, hs, by simp [h1, h2]⟩
    unfold Film.updateOriginalNumberScenes
    rw [hfind]
    simp only
    rw [if_pos hany]

/-- Witness for C9 on two concretely numbered scenes: renumbering scene 2 to
the already-used number 1 is rejected. -/
theorem unique_scene_numbers_witness :
    (([Film.sampleScene, Film.sampleScene2].map (fun s => s.id)).Nodup ∧
     ([Film.sampleScene, Film.sampleScene2].map
       (fun s => s.originalSceneNumber)).Nodup) ∧
    ((Film.updateOriginalNumberScenes true 1 [Film.sampleScene, Film.sampleScene2]
        "s2" 1).1.map (fun s => s.originalSceneNumber)).Nodup ∧
    (∀ cur, [Film.sampleScene, Film.sampleScene2].find?
        (fun s => decide (s.id = "s2")) = some cur →
      (∃ s ∈ [Film.sampleScene, Film.sampleScene2], s.id ≠ cur.id ∧
        s.originalSceneNumber = max 1 ⌊Film.jsNumOr1 1⌋) →
      Film.updateOriginalNumberScenes true 1 [Film.sampleScene, Film.sampleScene2]
        "s2" 1 = ([Film.sampleScene, Film.sampleScene2], true)) := by
  have hid : (([Film.sampleScene, Film.sampleScene2]).map (fun s => s.id)).Nodup := by
    simp [Film.sampleScene, Film.sampleScene2]
  have hnum : (([Film.sampleScene, Film.sampleScene2]).map
      (fun s => s.originalSceneNumber)).Nodup := by
    simp [Film.sampleScene, Film.sampleScene2]
  exact ⟨⟨hid, hnum⟩,
    unique_scene_numbers true 1 _ "s2" 1 hid hnum⟩

/-! ## C6: left-edge resize -/

/-- C6 counterexample: with the default snapping (`snapEnabled = true`, step
1 s), a left-edge resize of a scene at `positionSec = 0`, `lengthSec = 10` by
half a second (`dx = 0.5` px at zoom 1) stores `(1, 10)` — the right edge
moves from `10` to `11`.  And with snap step `0.3`, dragging by `9.3` s stores
`lengthSec = 0.9 < SCENE_MIN_SEC`. -/
theorem resizeL_counterexample :
    Film.resizeLPosLen true 1 0 10 (1/2) 1 = (1, 10) ∧
    ((1:ℚ) + 10 ≠ 0 + 10) ∧
    Film.resizeLPosLen true (3/10) 0 10 (93/10) 1 = (93/10, 9/10) ∧
    ((9/10 : ℚ) < Film.SCENE_MIN_SEC) := by
  refine ⟨?_, by norm_num, ?_, by norm_num [Film.SCENE_MIN_SEC]⟩ <;>
  · rw [Prod.ext_iff]
    constructor <;>
      norm_num [Film.resizeLPosLen, Film.roundToSnap, jsRound,
        Film.SCENE_MIN_SEC, max_def]

/-- C6 (amended): for a left-edge resize with snapping disabled, `positionSec`
and `lengthSec` change inversely so the right edge is exactly preserved
whenever neither clamp engages (`pos + δ ≥ 0` and `len - δ ≥ SCENE_MIN_SEC`
for `δ = dx / zoom`); `lengthSec` never drops below `SCENE_MIN_SEC` and
`positionSec` never drops below `0`.  With snapping enabled `positionSec ≥ 0`
still always holds, but rounding can move the right edge and can round the
clamped length below `SCENE_MIN_SEC` when the step does not divide it (see
the counterexample). -/
theorem resizeL_amended (stp pos len dx zoom : ℚ) (hz : 0 < zoom) :
    (∀ se : Bool, 0 ≤ (Film.resizeLPosLen se stp pos len dx zoom).1) ∧
    Film.SCENE_MIN_SEC ≤ (Film.resizeLPosLen false stp pos len dx zoom).2 ∧
    (0 ≤ pos + dx / zoom → Film.SCENE_MIN_SEC ≤ len - dx / zoom →
      (Film.resizeLPosLen false stp pos len dx zoom).1 +
        (Film.resizeLPosLen false stp pos len dx zoom).2 = pos + len) := by
  refine ⟨?_, ?_, ?_⟩
  · intro se
    cases se with
    | false =>
      simp only [Film.resizeLPosLen, Film.roundToSnap, Bool.false_eq_true,
        if_false]
      exact le_max_left _ _
    | true =>
      simp only [Film.resizeLPosLen, Film.roundToSnap, if_true]
      have hstep : (0:ℚ) < max (1/1000) stp :=
        lt_of_lt_of_le (by norm_num) (le_max_left _ _)
      have hv : (0:ℚ) ≤ max 0 (pos + dx / zoom) := le_max_left _ _
      have hdiv : (0:ℚ) ≤ max 0 (pos + dx / zoom) / max (1/1000) stp :=
        div_nonneg hv (le_of_lt hstep)
      have hround : (0:ℤ) ≤ jsRound (max 0 (pos + dx / zoom) / max (1/1000) stp) := by
        unfold jsRound
        apply Int.floor_nonneg.mpr
        linarith
      have : (0:ℚ) ≤ (jsRound (max 0 (pos + dx / zoom) / max (1/1000) stp) : ℚ) := by
        exact_mod_cast hround
      exact mul_nonneg this (le_of_lt hstep)
  · simp only [Film.resizeLPosLen, Film.roundToSnap, Bool.false_eq_true, if_false]
    exact le_max_left _ _
  · intro h1 h2
    simp only [Film.resizeLPosLen, Film.roundToSnap, Bool.false_eq_true, if_false]
    rw [max_eq_right h1, max_eq_right h2]
    ring

/-- Witness for C6 (amended) at `stp = 1`, `pos = 2`, `len = 10`, `dx = 3`,
`zoom = 1`. -/
theorem resizeL_amended_witness :
    (0 < (1:ℚ)) ∧
    ((∀ se : Bool, 0 ≤ (Film.resizeLPosLen se 1 2 10 3 1).1) ∧
     Film.SCENE_MIN_SEC ≤ (Film.resizeLPosLen false 1 2 10 3 1).2 ∧
     (0 ≤ (2:ℚ) + 3 / 1 → Film.SCENE_MIN_SEC ≤ (10:ℚ) - 3 / 1 →
       (Film.resizeLPosLen false 1 2 10 3 1).1 +
         (Film.resizeLPosLen false 1 2 10 3 1).2 = 2 + 10)) :=
  ⟨by norm_num, resizeL_amended 1 2 10 3 1 (by norm_num)⟩

/-- Witness for C7 (amended) at `z = 48`, `w = 96`. -/
theorem grid_step_selection_amended_witness :
    ((1:ℚ) ≤ 48) ∧ ((48:ℚ) ≤ 96) ∧
    (((48:ℚ) ≤ 500 →
      Film.pickGridStepSec 48 ∈ Film.gridLadder ∧
      120 ≤ 48 * Film.pickGridStepSec 48 ∧
      (∀ s ∈ Film.gridLadder, 120 ≤ 48 * s → Film.pickGridStepSec 48 ≤ s)) ∧
     Film.pickGridStepSec 96 ≤ Film.pickGridStepSec 48 ∧
     ((48:ℚ) ≤ 300 →
      Music.pickGridStepSec 48 ∈ Music.gridLadder ∧
      120 ≤ 48 * Music.pickGridStepSec 48 ∧
      (∀ s ∈ Music.gridLadder, 120 ≤ 48 * s → Music.pickGridStepSec 48 ≤ s)) ∧
     Music.pickGridStepSec 96 ≤ Music.pickGridStepSec 48) :=
  ⟨by norm_num, by norm_num,
    grid_step_selection_amended 48 96 (by norm_num) (by norm_num)⟩

end DT
